import Mathlib

/-! Tabular data inference engine of `src/components/UploadZone.jsx`.

A shallow embedding of `detectColumnsFromData`, `suggestChart` and
`buildChartData`, together with the part of the JavaScript run time those
functions rely on (string trimming, `Number`, `String`, `Date.parse`, regular
expression tests and the property order of ordinary objects).

Modelling conventions.
* A JavaScript string is a Lean `String`; a code point stands for a code unit.
* A finite JavaScript number is the decimal `m * 10 ^ e` it denotes, kept in
  normal form (`m` not divisible by ten, or `m = 0` and `e = 0`); arithmetic is
  exact, so IEEE rounding, overflow to `Infinity` and the sign of zero are
  outside the model.
* `Date.parse` is fixed by ECMAScript only for its date-time string format; the
  calendar dates `YYYY-MM-DD` are computed here, every other string is left to
  a parameter `host` (the JavaScript engine's own fallback parser; `none` is `NaN`).
* A record, and every object the engine uses as a dictionary, is an ordinary
  object: a read falls back on `Object.prototype`, and `Object.keys` lists the
  array indices first.
-/

set_option autoImplicit false

namespace UploadZone

/-! ## Characters and strings -/

/-- White space and line terminators of ECMAScript: what `trim`, `\s` and the
string-to-number conversion skip. -/
def isJsSpace (c : Char) : Bool :=
  let n := c.toNat
  n == 9 || n == 10 || n == 11 || n == 12 || n == 13 || n == 32 || n == 160 ||
  n == 5760 || (8192 ≤ n && n ≤ 8202) || n == 8232 || n == 8233 || n == 8239 ||
  n == 8287 || n == 12288 || n == 65279

/-- Characters of a string without leading and trailing white space. -/
def trimChars (cs : List Char) : List Char :=
  ((cs.dropWhile isJsSpace).reverse.dropWhile isJsSpace).reverse

/-- The method `String.prototype.trim`. -/
def jsTrim (s : String) : String := ⟨trimChars s.data⟩

/-- The class `\d`. -/
def isDigit (c : Char) : Bool := 48 ≤ c.toNat && c.toNat ≤ 57

/-- Hexadecimal digits. -/
def isHexDigit (c : Char) : Bool :=
  isDigit c || (97 ≤ c.toNat && c.toNat ≤ 102) || (65 ≤ c.toNat && c.toNat ≤ 70)

/-- Value of a digit character in any radix up to sixteen. -/
def digitVal (c : Char) : Nat :=
  if isDigit c then c.toNat - 48
  else if 97 ≤ c.toNat then c.toNat - 87
  else c.toNat - 55

/-- Value of a digit sequence in the given radix. -/
def digitsVal (radix : Nat) (cs : List Char) : Nat :=
  cs.foldl (fun acc c => acc * radix + digitVal c) 0

/-! ## Numbers -/

/-- A JavaScript number: `NaN`, an infinity, or the finite decimal `m * 10 ^ e`. -/
inductive JSNum where
  | nan
  | inf (neg : Bool)
  | fin (m : Int) (e : Int)
  deriving DecidableEq, Repr

namespace JSNum

/-- Moves factors of ten from the mantissa to the exponent. -/
def stripZeros : Nat → Int → Int → Int × Int
  | 0, m, e => (m, e)
  | fuel + 1, m, e => if m % 10 = 0 then stripZeros fuel (m / 10) (e + 1) else (m, e)

/-- The finite number `m * 10 ^ e` in normal form. -/
def ofDec (m e : Int) : JSNum :=
  if m = 0 then fin 0 0
  else
    let r := stripZeros m.natAbs m e
    fin r.1 r.2

/-- An integer as a number. -/
def ofInt (z : Int) : JSNum := ofDec z 0

/-- The number zero. -/
def zero : JSNum := fin 0 0

/-- The predicate `isNaN` on numbers. -/
def isNaN : JSNum → Bool
  | nan => true
  | _ => false

/-- Truthiness of a number: everything but `NaN` and zero. -/
def truthy : JSNum → Bool
  | nan => false
  | inf _ => true
  | fin m _ => m != 0

/-- Unary minus. -/
def neg : JSNum → JSNum
  | nan => nan
  | inf b => inf (!b)
  | fin m e => fin (-m) e

/-- Numeric addition. -/
def add : JSNum → JSNum → JSNum
  | nan, _ => nan
  | _, nan => nan
  | inf a, inf b => if a = b then inf a else nan
  | inf a, fin _ _ => inf a
  | fin _ _, inf b => inf b
  | fin m₁ e₁, fin m₂ e₂ =>
    let e := min e₁ e₂
    ofDec (m₁ * 10 ^ (e₁ - e).toNat + m₂ * 10 ^ (e₂ - e).toNat) e

/-- Decimal digits of a natural number. -/
def natDigits (n : Nat) : List Char := Nat.toDigits 10 n

/-- The operation `Number::toString` for a positive finite number with digits `s` and
exponent `e`: plain notation while the decimal point lies within 21 digits
to the right and 6 to the left, exponential notation otherwise. -/
def finStr (s : Nat) (e : Int) : List Char :=
  let ds := natDigits s
  let k : Int := ds.length
  let n : Int := k + e
  if k ≤ n ∧ n ≤ 21 then ds ++ List.replicate (n - k).toNat '0'
  else if 0 < n ∧ n ≤ 21 then ds.take n.toNat ++ '.' :: ds.drop n.toNat
  else if -6 < n ∧ n ≤ 0 then '0' :: '.' :: List.replicate (-n).toNat '0' ++ ds
  else
    let ex := n - 1
    let tail := 'e' :: (if ex < 0 then '-' else '+') :: natDigits ex.natAbs
    match ds with
    | [d] => d :: tail
    | d :: rest => d :: '.' :: rest ++ tail
    | [] => tail

/-- The conversion `String(n)` for a number. -/
def toStr : JSNum → String
  | nan => "NaN"
  | inf false => "Infinity"
  | inf true => "-Infinity"
  | fin m e =>
    if m = 0 then "0"
    else if m < 0 then ⟨'-' :: finStr m.natAbs e⟩
    else ⟨finStr m.natAbs e⟩

/-- Exponent part of a decimal literal, which must reach the end of the text. -/
def parseExponent : List Char → Option Int
  | [] => some 0
  | c :: rest =>
    if c = 'e' ∨ c = 'E' then
      match rest with
      | '+' :: ds => if ds ≠ [] ∧ ds.all isDigit then some (digitsVal 10 ds) else none
      | '-' :: ds => if ds ≠ [] ∧ ds.all isDigit then some (-(digitsVal 10 ds : Int)) else none
      | ds => if ds ≠ [] ∧ ds.all isDigit then some (digitsVal 10 ds) else none
    else none

/-- The production `StrUnsignedDecimalLiteral`: `Infinity`, or digits with an optional
fraction and exponent, at least one digit before or after the point. -/
def parseUnsigned (cs : List Char) : Option JSNum :=
  if cs = "Infinity".data then some (inf false)
  else
    let ip := cs.takeWhile isDigit
    let r₁ := cs.dropWhile isDigit
    let fp := match r₁ with
      | '.' :: r => r.takeWhile isDigit
      | _ => []
    let r₂ := match r₁ with
      | '.' :: r => r.dropWhile isDigit
      | _ => r₁
    if ip = [] ∧ fp = [] then none
    else (parseExponent r₂).map fun ex => ofDec (digitsVal 10 (ip ++ fp)) (ex - fp.length)

/-- The production `StrDecimalLiteral`: an optional sign before the unsigned literal. -/
def parseDecimal : List Char → Option JSNum
  | '+' :: cs => parseUnsigned cs
  | '-' :: cs => (parseUnsigned cs).map neg
  | cs => parseUnsigned cs

/-- The production `NonDecimalIntegerLiteral`: `0x`, `0o` and `0b` literals, never signed. -/
def parseNonDecimal : List Char → Option JSNum
  | '0' :: p :: ds =>
    if p = 'x' ∨ p = 'X' then
      if ds ≠ [] ∧ ds.all isHexDigit then some (ofInt (digitsVal 16 ds)) else none
    else if p = 'o' ∨ p = 'O' then
      if ds ≠ [] ∧ ds.all (fun c => 48 ≤ c.toNat && c.toNat ≤ 55) then
        some (ofInt (digitsVal 8 ds)) else none
    else if p = 'b' ∨ p = 'B' then
      if ds ≠ [] ∧ ds.all (fun c => c = '0' ∨ c = '1') then
        some (ofInt (digitsVal 2 ds)) else none
    else none
  | _ => none

/-- The operation `StringToNumber`: the trimmed text is empty (zero), a numeric literal, or
the result is `NaN`. -/
def ofString (s : String) : JSNum :=
  let t := trimChars s.data
  if t = [] then zero
  else match parseNonDecimal t with
    | some n => n
    | none => (parseDecimal t).getD nan

end JSNum

/-! ## Values and ordinary objects -/

/-- A value held by a record cell or produced by the engine. `native k` is the
object an ordinary object inherits under the name `k` from `Object.prototype`:
one of its built-in methods, or `Object.prototype` itself for `__proto__`. -/
inductive JSVal where
  | undefined
  | null
  | bool (b : Bool)
  | num (n : JSNum)
  | str (s : String)
  | native (k : String)
  deriving DecidableEq, Repr

/-- Names every ordinary object inherits from `Object.prototype`. -/
def protoKeys : List String :=
  ["constructor", "__defineGetter__", "__defineSetter__", "hasOwnProperty",
   "__lookupGetter__", "__lookupSetter__", "isPrototypeOf", "propertyIsEnumerable",
   "toString", "valueOf", "__proto__", "toLocaleString"]

/-- Text of an inherited object: `[object Object]` for `Object.prototype`, the
source text of a built-in method otherwise (as V8 prints it). -/
def nativeText (k : String) : String :=
  if k = "__proto__" then "[object Object]"
  else "function " ++ (if k = "constructor" then "Object" else k) ++ "() { [native code] }"

namespace JSVal

/-- The conversion `String(v)`. -/
def toStr : JSVal → String
  | undefined => "undefined"
  | null => "null"
  | bool true => "true"
  | bool false => "false"
  | num n => n.toStr
  | str s => s
  | native k => nativeText k

/-- The conversion `Number(v)`. -/
def toNum : JSVal → JSNum
  | undefined => .nan
  | null => .zero
  | bool true => .fin 1 0
  | bool false => .zero
  | num n => n
  | str s => JSNum.ofString s
  | native k => JSNum.ofString (nativeText k)

/-- Truthiness, as tested by `!v`, `v || w` and `filter(Boolean)`. -/
def truthy : JSVal → Bool
  | undefined => false
  | null => false
  | bool b => b
  | num n => n.truthy
  | str s => s != ""
  | native _ => true

/-- The operator `a || b`. -/
def or (a b : JSVal) : JSVal := if a.truthy then a else b

/-- The operator `a ?? b`. -/
def nullish (a b : JSVal) : JSVal :=
  match a with
  | undefined => b
  | null => b
  | _ => a

/-- Whether `a + b` concatenates: an operand is a string, or an object whose
primitive value is one. -/
def isStringy : JSVal → Bool
  | str _ => true
  | native _ => true
  | _ => false

/-- The operator `a + b`. -/
def plus (a b : JSVal) : JSVal :=
  if a.isStringy || b.isStringy then str (a.toStr ++ b.toStr)
  else num (a.toNum.add b.toNum)

end JSVal

/-- Own properties of an ordinary object, in creation order. -/
abbrev JSObj := List (String × JSVal)

/-- Canonical numeric strings of the integers `0 .. 2^32 - 2`: the keys an
object enumerates first, in ascending order. -/
def isArrayIndex (k : String) : Bool :=
  k.data != [] && k.data.all isDigit && (k.data == ['0'] || k.data.head? != some '0') &&
  digitsVal 10 k.data ≤ 4294967294

/-- Numeric value of an array index key. -/
def indexOfKey (k : String) : Nat := digitsVal 10 k.data

namespace JSObj

/-- The read `o[k]`: an own property, else what `Object.prototype` provides. -/
def get (o : JSObj) (k : String) : JSVal :=
  match o.lookup k with
  | some v => v
  | none => if k ∈ protoKeys then .native k else .undefined

/-- The read `o[key]` for a key that is any value (converted to a string). -/
def getV (o : JSObj) (key : JSVal) : JSVal := o.get key.toStr

/-- The assignment `o[k] = v` of a primitive `v`: an own property is updated
in place; `__proto__` reaches the inherited setter, which ignores a primitive;
any other name becomes a new own property, created last. -/
def set (o : JSObj) (k : String) (v : JSVal) : JSObj :=
  if o.any (fun p => p.1 == k) then o.map (fun p => if p.1 = k then (k, v) else p)
  else if k = "__proto__" then o
  else o ++ [(k, v)]

/-- Own properties in enumeration order: array indices ascending, then the
other names in creation order. -/
def entries (o : JSObj) : List (String × JSVal) :=
  (o.filter (fun p => isArrayIndex p.1)).insertionSort
      (fun p q => indexOfKey p.1 ≤ indexOfKey q.1) ++
    o.filter (fun p => !isArrayIndex p.1)

/-- The call `Object.keys(o)`. -/
def keys (o : JSObj) : List String := o.entries.map Prod.fst

/-- The call `Object.values(o)`. -/
def values (o : JSObj) : List JSVal := o.entries.map Prod.snd

end JSObj

/-! ## Dates -/

/-- Leap years of the proleptic Gregorian calendar. -/
def isLeapYear (y : Nat) : Bool := y % 4 == 0 && (y % 100 != 0 || y % 400 == 0)

/-- Days of a month. -/
def daysInMonth (y m : Nat) : Nat :=
  if m = 2 then (if isLeapYear y then 29 else 28)
  else if m = 4 ∨ m = 6 ∨ m = 9 ∨ m = 11 then 30
  else 31

/-- Days from 1970-01-01 to the given calendar date. -/
def daysFromCivil (y m d : Nat) : Int :=
  let y' : Int := if m ≤ 2 then (y : Int) - 1 else y
  let era : Int := y' / 400
  let yoe : Int := y' - era * 400
  let mp : Int := ((m + 9) % 12 : Nat)
  let doy : Int := (153 * mp + 2) / 5 + d - 1
  let doe : Int := yoe * 365 + yoe / 4 - yoe / 100 + doy
  era * 146097 + doe - 719468

/-- The date-only form `YYYY-MM-DD` of the ECMAScript date-time string format,
read as UTC midnight in milliseconds; `none` for any other text and for a
month or day out of range. -/
def isoDate (cs : List Char) : Option Int :=
  match cs with
  | [y₁, y₂, y₃, y₄, '-', m₁, m₂, '-', d₁, d₂] =>
    if [y₁, y₂, y₃, y₄, m₁, m₂, d₁, d₂].all isDigit then
      let y := digitsVal 10 [y₁, y₂, y₃, y₄]
      let m := digitsVal 10 [m₁, m₂]
      let d := digitsVal 10 [d₁, d₂]
      if 1 ≤ m ∧ m ≤ 12 ∧ 1 ≤ d ∧ d ≤ daysInMonth y m then
        some (daysFromCivil y m d * 86400000)
      else none
    else none
  | _ => none

/-- The call `Date.parse(s)`: a calendar date in ISO form has its mandated value, any
other text is read by the host's parser (`none` is `NaN`). -/
def dateParse (host : String → Option Int) (s : String) : Option Int :=
  match isoDate s.data with
  | some t => some t
  | none => host s

/-- The operation `TimeClip`: the integral part of a finite number within the date range. -/
def timeClip : JSNum → Option Int
  | .fin m e =>
    let t := if 0 ≤ e then m * 10 ^ e.toNat else Int.tdiv m (10 ^ (-e).toNat)
    if t.natAbs ≤ 8640000000000000 then some t else none
  | _ => none

/-- The expression `new Date(v).getTime()`: strings are parsed, `undefined` is invalid, any
other value is converted to a number and clipped. -/
def dateTime (host : String → Option Int) : JSVal → JSNum
  | .str s => (dateParse host s).elim .nan JSNum.ofInt
  | .native k => (dateParse host (nativeText k)).elim .nan JSNum.ofInt
  | .undefined => .nan
  | v => (timeClip v.toNum).elim .nan JSNum.ofInt

/-! ## Regular expressions

A pattern anchored at the start of the text is read as the list of remainders
it can leave behind; `$` asks for an empty remainder. -/

/-- A pattern: the remainders it can leave when read at the start of a text. -/
abbrev Rx := List Char → List (List Char)

namespace Rx

/-- One character of a class. -/
def cls (p : Char → Bool) : Rx
  | c :: cs => if p c then [cs] else []
  | [] => []

/-- Concatenation. -/
def seq (a b : Rx) : Rx := fun s => (a s).flatMap b

/-- An optional pattern `a?`. -/
def opt (a : Rx) : Rx := fun s => a s ++ [s]

/-- Repetition `[p]*` of a character class. -/
def star (p : Char → Bool) : Rx
  | [] => [[]]
  | c :: cs => if p c then (c :: cs) :: star p cs else [c :: cs]

/-- A literal word under the flag `i`. -/
def word : List Char → Rx
  | [], s => [s]
  | w :: ws, c :: cs => if c.toLower = w.toLower then word ws cs else []
  | _ :: _, [] => []

/-- An alternation of literal words under the flag `i`. -/
def words (ws : List String) : Rx := fun s => ws.flatMap fun w => word w.data s

/-- Whether the pattern can consume the whole text (a pattern ending in `$`). -/
def toEnd (a : Rx) (s : List Char) : Bool := (a s).any List.isEmpty

/-- Whether the pattern matches a prefix of the text (no `$`). -/
def prefixOf (a : Rx) (s : List Char) : Bool := !(a s).isEmpty

end Rx

/-- The class of the two date separators, dash and slash. -/
def isDateSep (c : Char) : Bool := c = '-' || c = '/'

/-- The class of a dash or a white space character. -/
def isDashOrSpace (c : Char) : Bool := c = '-' || isJsSpace c

/-- The class `[a-z]` under the flag `i`. -/
def isLetter (c : Char) : Bool :=
  (97 ≤ c.toNat && c.toNat ≤ 122) || (65 ≤ c.toNat && c.toNat ≤ 90)

/-- The pattern `\d{1,2}`. -/
def rxDigits12 : Rx := Rx.seq (Rx.cls isDigit) (Rx.opt (Rx.cls isDigit))

/-- The pattern `\d{4}`. -/
def rxDigits4 : Rx :=
  Rx.seq (Rx.cls isDigit) (Rx.seq (Rx.cls isDigit) (Rx.seq (Rx.cls isDigit) (Rx.cls isDigit)))

/-- The pattern `\d{2,4}`. -/
def rxDigits24 : Rx :=
  Rx.seq (Rx.cls isDigit) (Rx.seq (Rx.cls isDigit)
    (Rx.opt (Rx.seq (Rx.cls isDigit) (Rx.opt (Rx.cls isDigit)))))

/-- First alternative of `datePatterns`: one or two digits, a separator, one
or two digits, a separator, two to four digits, end of text. -/
def rxDayMonthYear : Rx :=
  Rx.seq rxDigits12 (Rx.seq (Rx.cls isDateSep) (Rx.seq rxDigits12
    (Rx.seq (Rx.cls isDateSep) rxDigits24)))

/-- Second alternative of `datePatterns`: four digits, a separator, one or two
digits, a separator, one or two digits, end of text. -/
def rxYearMonthDay : Rx :=
  Rx.seq rxDigits4 (Rx.seq (Rx.cls isDateSep) (Rx.seq rxDigits12
    (Rx.seq (Rx.cls isDateSep) rxDigits12)))

/-- Third alternative of `datePatterns`, which has no `$`: a month abbreviation,
any letters, a dash or space, one or two digits. -/
def rxMonthAbbrev : Rx :=
  Rx.seq (Rx.words ["Jan", "Feb", "Mar", "Apr", "May", "Jun", "Jul", "Aug", "Sep", "Oct",
      "Nov", "Dec"])
    (Rx.seq (Rx.star isLetter) (Rx.seq (Rx.cls isDashOrSpace) rxDigits12))

/-- Fourth alternative of `datePatterns`: a full month name, a dash or space,
one or two digits, end of text. -/
def rxMonthName : Rx :=
  Rx.seq (Rx.words ["January", "February", "March", "April", "May", "June", "July",
      "August", "September", "October", "November", "December"])
    (Rx.seq (Rx.cls isDashOrSpace) rxDigits12)

/-- The test `datePatterns.test(str)`. -/
def datePatterns (str : String) : Bool :=
  Rx.toEnd rxDayMonthYear str.data || Rx.toEnd rxYearMonthDay str.data ||
  Rx.prefixOf rxMonthAbbrev str.data || Rx.toEnd rxMonthName str.data

/-! ## Column profiler: `detectColumnsFromData` -/

/-- Statistics of a profile. The source also stores `percentFilled`, a rounded
floating-point percentage used for display only; it is not modelled. -/
structure Stats where
  validCount : Nat
  total : Nat
  uniqueCount : Option Nat
  deriving DecidableEq, Repr

/-- A column profile. -/
structure ColMeta where
  name : String
  type : String
  sample : String
  use : Bool
  stats : Stats
  deriving DecidableEq, Repr

/-- The filter that keeps the non-empty values of a column. -/
def isNonEmpty (v : JSVal) : Bool :=
  match v with
  | .undefined => false
  | .null => false
  | v =>
    let str := jsTrim v.toStr
    str != "" && str != "N/A" && str != "NA" && str != "-"

/-- The replacement `.replace(/[$,()]/g, '')`. -/
def removeSymbols (cs : List Char) : List Char :=
  cs.filter fun c => !(c = '$' || c = ',' || c = '(' || c = ')')

/-- The replacement `.replace(/,(\d{3})/g, '$1')`: a comma in front of three
digits is dropped, and the scan goes on after those digits. -/
def dropGroupCommas : List Char → List Char
  | [] => []
  | c :: d₁ :: d₂ :: d₃ :: rest =>
    if c = ',' && isDigit d₁ && isDigit d₂ && isDigit d₃ then
      d₁ :: d₂ :: d₃ :: dropGroupCommas rest
    else c :: dropGroupCommas (d₁ :: d₂ :: d₃ :: rest)
  | c :: tl => c :: dropGroupCommas tl

/-- The text `cleaned` that the numeric test converts. -/
def cleanNumber (v : JSVal) : String :=
  ⟨trimChars (dropGroupCommas (removeSymbols (jsTrim v.toStr).data))⟩

/-- One entry of `numberValues`: the parsed number, `none` standing for `null`. -/
def numberValue (v : JSVal) : Option JSNum :=
  let num := JSNum.ofString (cleanNumber v)
  if num.isNaN then none else some num

/-- The filter behind `validDates`. -/
def isValidDate (host : String → Option Int) (v : JSVal) : Bool :=
  let str := jsTrim v.toStr
  if datePatterns str then true
  else match dateParse host str with
    | none => false
    | some time => (JSNum.ofString str).isNaN && decide (0 < time)

/-- The expression `Array.from(new Set(xs))`: the distinct strings, each at its first place. -/
def jsSet : List String → List String
  | [] => []
  | x :: xs => x :: (jsSet xs).filter (fun y => y != x)

/-- The comparison `a / b >= 0.9` on two counts with `b > 0`. Division of
doubles is correctly rounded and `b` is at most 50, so the comparison agrees
with the exact one. -/
def ratioAtLeastNineTenths (a b : Nat) : Bool := decide (9 * b ≤ 10 * a)

/-- The comparison `(a / b) * 100 <= 50` on two counts with `b > 0`; exact for
the same reason. -/
def percentAtMostFifty (a b : Nat) : Bool := decide (100 * a ≤ 50 * b)

/-- The local `validNumbers`: the entries of `numberValues` that are not `null`. -/
def validNumbers (nonEmpty : List JSVal) : List (Option JSNum) :=
  (nonEmpty.map numberValue).filter Option.isSome

/-- The local `isNumber`. -/
def isNumber (nonEmpty : List JSVal) : Bool :=
  decide (nonEmpty.length > 0) &&
    ratioAtLeastNineTenths (validNumbers nonEmpty).length nonEmpty.length

/-- The local `validDates`. -/
def validDates (host : String → Option Int) (nonEmpty : List JSVal) : List JSVal :=
  nonEmpty.filter (isValidDate host)

/-- The local `isDate`, computed only when the column is not a number. -/
def isDate (host : String → Option Int) (nonEmpty : List JSVal) : Bool :=
  if !isNumber nonEmpty then
    (validDates host nonEmpty).length == nonEmpty.length && decide (nonEmpty.length > 0)
  else false

/-- The local `uniqueValues`. -/
def uniqueValues (nonEmpty : List JSVal) : List String :=
  jsSet (nonEmpty.map JSVal.toStr)

/-- The local `isCategorical`; `sampleLength` is `sample.length`. -/
def isCategorical (host : String → Option Int) (sampleLength : Nat) (nonEmpty : List JSVal) :
    Bool :=
  percentAtMostFifty (uniqueValues nonEmpty).length nonEmpty.length &&
    decide ((uniqueValues nonEmpty).length ≤ min 20 (max 5 (sampleLength / 2))) &&
    !isNumber nonEmpty && !isDate host nonEmpty

/-- The local `type`: the first of number, date, categorical that holds, else text. -/
def columnType (host : String → Option Int) (sampleLength : Nat) (nonEmpty : List JSVal) :
    String :=
  if isNumber nonEmpty then "number"
  else if isDate host nonEmpty then "date"
  else if isCategorical host sampleLength nonEmpty then "categorical"
  else "text"

/-- The profile of one column: the callback of `keys.map`. -/
def detectColumn (host : String → Option Int) (sample : List JSObj) (col : String) : ColMeta :=
  let values := sample.map fun r => r.get col
  let nonEmpty := values.filter isNonEmpty
  if nonEmpty.length = 0 then
    { name := col, type := "text", sample := "", use := false,
      stats := { validCount := 0, total := values.length, uniqueCount := none } }
  else
    let type := columnType host sample.length nonEmpty
    { name := col, type := type,
      sample := match nonEmpty with
        | v :: _ => v.toStr
        | [] => "",
      use := type != "text",
      stats := { validCount := nonEmpty.length, total := values.length,
                 uniqueCount := some (uniqueValues nonEmpty).length } }

/-- The function `detectColumnsFromData`; `none` is a `null` argument. -/
def detectColumnsFromData (host : String → Option Int) (data : Option (List JSObj)) :
    List ColMeta :=
  match data with
  | none => []
  | some rows =>
    if rows.length = 0 then []
    else
      let sample := rows.take (min 50 rows.length)
      let keys := (sample.head?.getD []).keys
      keys.map (detectColumn host sample)

/-! ## Chart advisor: `suggestChart` -/

/-- A chart suggestion. A field the source leaves out is `undefined`
(`none` for `viewType`). -/
structure Suggestion where
  type : String
  reason : String
  x : JSVal
  y : JSVal
  viewType : Option String
  deriving DecidableEq, Repr

/-- The lookup `colsMeta.find((c) => c.name === sel)`. -/
def findByName (colsMeta : List ColMeta) (sel : JSVal) : Option ColMeta :=
  colsMeta.find? fun c => JSVal.str c.name == sel

/-- The branch for no selected axis (source lines 111-165). -/
def suggestAuto (colsMeta : List ColMeta) : Suggestion :=
  let dateCol := colsMeta.find? fun c => c.type == "date"
  let numberCols := colsMeta.filter fun c => c.type == "number"
  let categoricalCols := colsMeta.filter fun c => c.type == "categorical"
  let textCols := colsMeta.filter fun c => c.type == "text"
  match dateCol, numberCols with
  | some d, n :: _ =>
    { type := "line", reason := "time series data", x := .str d.name, y := .str n.name,
      viewType := none }
  | _, _ =>
  match categoricalCols, numberCols with
  | c :: _, n :: _ =>
    { type := "bar", reason := "categorical analysis", x := .str c.name, y := .str n.name,
      viewType := none }
  | _, _ =>
  match numberCols with
  | n₀ :: n₁ :: _ =>
    { type := "scatter", reason := "correlation analysis", x := .str n₀.name,
      y := .str n₁.name, viewType := none }
  | _ =>
  match numberCols, categoricalCols.head?.orElse (fun _ => textCols.head?) with
  | [n], some textCol =>
    { type := "bar", reason := "data analysis", x := .str textCol.name, y := .str n.name,
      viewType := none }
  | _, _ =>
  match categoricalCols, numberCols with
  | c :: _, [] =>
    { type := "pie", reason := "categorical distribution", x := .str c.name, y := .null,
      viewType := some "frequency" }
  | _, _ =>
  match dateCol, numberCols, categoricalCols with
  | some d, [], [] =>
    { type := "table", reason := "date-only dataset - use data explorer", x := .str d.name,
      y := .undefined, viewType := some "timeline" }
  | _, _, _ =>
    { type := "table", reason := "no numeric columns - use data explorer", x := .undefined,
      y := .undefined, viewType := some "explorer" }

/-- Everything after the both-axes rules (source lines 110-186). -/
def suggestRest (colsMeta : List ColMeta) (xMeta yMeta : Option ColMeta) : Suggestion :=
  match xMeta, yMeta with
  | none, none => suggestAuto colsMeta
  | some x, none =>
    match colsMeta.filter fun c => c.type == "number" with
    | n :: _ =>
      { type := "bar", reason := "numeric analysis", x := .str x.name, y := .str n.name,
        viewType := none }
    | [] =>
      { type := "table", reason := "no suitable columns - use data explorer", x := .undefined,
        y := .undefined, viewType := some "explorer" }
  | none, some y =>
    match colsMeta.filter fun c => c.type == "categorical" || c.type == "text" with
    | c :: _ =>
      if y.type = "number" then
        { type := "bar", reason := "comparison analysis", x := .str c.name, y := .str y.name,
          viewType := none }
      else
        { type := "table", reason := "no suitable columns - use data explorer",
          x := .undefined, y := .undefined, viewType := some "explorer" }
    | [] =>
      { type := "table", reason := "no suitable columns - use data explorer", x := .undefined,
        y := .undefined, viewType := some "explorer" }
  | some _, some _ =>
    { type := "table", reason := "no suitable columns - use data explorer", x := .undefined,
      y := .undefined, viewType := some "explorer" }

/-- The function `suggestChart`. -/
def suggestChart (colsMeta : List ColMeta) (selectedX selectedY : JSVal) : Suggestion :=
  let xMeta := findByName colsMeta selectedX
  let yMeta := findByName colsMeta selectedY
  match xMeta, yMeta with
  | some x, some y =>
    if x.type = "date" ∧ y.type = "number" then
      { type := "line", reason := "time series data", x := .str x.name, y := .str y.name,
        viewType := none }
    else if x.type = "categorical" ∧ y.type = "number" then
      { type := "bar", reason := "categorical comparison", x := .str x.name, y := .str y.name,
        viewType := none }
    else if x.type = "number" ∧ y.type = "number" then
      { type := "scatter", reason := "correlation analysis", x := .str x.name,
        y := .str y.name, viewType := none }
    else if y.type = "number" then
      { type := "bar", reason := "numeric analysis", x := .str x.name, y := .str y.name,
        viewType := none }
    else suggestRest colsMeta xMeta yMeta
  | _, _ => suggestRest colsMeta xMeta yMeta

/-! ## Series builder: `buildChartData` -/

/-- A point of a scatter or time series. -/
structure Point where
  x : JSNum
  y : JSNum
  deriving DecidableEq, Repr

/-- The `data` array of the single dataset. -/
inductive SeriesData where
  | values (vs : List JSVal)
  | points (ps : List Point)
  deriving DecidableEq, Repr

/-- The payload handed to the chart: `labels` (absent for point series), and
the `label` and `data` of its one dataset. Colours and other constant drawing
attributes are left out. -/
structure ChartData where
  labels : Option (List String)
  label : JSVal
  data : SeriesData
  deriving DecidableEq, Repr

/-- The expression `Number(r[ycol]) || 0`. -/
def numberOrZero (r : JSObj) (ycol : JSVal) : JSVal :=
  JSVal.or (.num (r.getV ycol).toNum) (.num .zero)

/-- The object `grouped` after the `forEach` of the group-and-sum branches. -/
def groupSum (rows : List JSObj) (xcol ycol : JSVal) : JSObj :=
  rows.foldl (fun grouped r =>
    let k := (r.getV xcol).toStr
    let v := numberOrZero r ycol
    grouped.set k (JSVal.plus (JSVal.or (grouped.get k) (.num .zero)) v)) []

/-- The object `counts` after the `forEach` of the frequency branch. -/
def groupCount (rows : List JSObj) (xcol ycol : JSVal) : JSObj :=
  rows.foldl (fun counts r =>
    let k := (JSVal.nullish (JSVal.nullish (r.getV xcol) (r.getV ycol)) (.str "unknown")).toStr
    counts.set k (JSVal.plus (JSVal.or (counts.get k) (.num .zero)) (.num (.fin 1 0)))) []

/-- The condition `xMeta && xMeta.type === "categorical" && yMeta &&
yMeta.type === "number"`. -/
def isCategoryNumber (xMeta yMeta : Option ColMeta) : Bool :=
  match xMeta, yMeta with
  | some x, some y => x.type == "categorical" && y.type == "number"
  | _, _ => false

/-- The scatter callback followed by `filter(Boolean)`: the point of a row,
unless a coordinate is `NaN`. -/
def scatterPoint (xcol ycol : JSVal) (r : JSObj) : Option Point :=
  let x := (r.getV xcol).toNum
  let y := (r.getV ycol).toNum
  if x.isNaN || y.isNaN then none else some { x := x, y := y }

/-- The function `buildChartData`; `none` is `null`, as argument and as result. -/
def buildChartData (host : String → Option Int) (rows : Option (List JSObj))
    (xcol ycol : JSVal) (chartType : String) (colsMeta : List ColMeta) : Option ChartData :=
  match rows with
  | none => none
  | some rows =>
    if rows.length = 0 then none
    else if (!xcol.truthy || !ycol.truthy) && chartType != "pie" then none
    else
      let xMeta := findByName colsMeta xcol
      let yMeta := findByName colsMeta ycol
      if chartType = "pie" then
        if isCategoryNumber xMeta yMeta then
          let grouped := groupSum rows xcol ycol
          some { labels := some grouped.keys, label := .undefined,
                 data := .values grouped.values }
        else
          let counts := groupCount rows xcol ycol
          some { labels := some counts.keys, label := .undefined,
                 data := .values counts.values }
      else if chartType = "scatter" then
        some { labels := none, label := .str (ycol.toStr ++ " vs " ++ xcol.toStr),
               data := .points (rows.filterMap (scatterPoint xcol ycol)) }
      else if chartType = "line" then
        let points := rows.map fun r => (r.getV xcol, (r.getV ycol).toNum)
        if (xMeta.map fun c => c.type == "date") = some true then
          let points := (points.map fun p => ({ x := dateTime host p.1, y := p.2 } : Point)).filter
            fun p => !p.x.isNaN
          some { labels := none, label := ycol, data := .points points }
        else
          some { labels := some (rows.map fun r => (r.getV xcol).toStr), label := ycol,
                 data := .values (rows.map fun r => numberOrZero r ycol) }
      else if chartType = "bar" then
        if isCategoryNumber xMeta yMeta then
          let grouped := groupSum rows xcol ycol
          some { labels := some grouped.keys, label := ycol, data := .values grouped.values }
        else
          some { labels := some (rows.map fun r => (JSVal.nullish (r.getV xcol) (.str "")).toStr),
                 label := ycol, data := .values (rows.map fun r => numberOrZero r ycol) }
      else none

/-! ## Specification vocabulary and fixtures -/

/-- The profile `c` is the first of `l`, in profile order, whose type is `t`. -/
def FirstOfType (t : String) (c : ColMeta) (l : List ColMeta) : Prop :=
  ∃ pre post, l = pre ++ c :: post ∧ c.type = t ∧ ∀ a ∈ pre, a.type ≠ t

/-- Profiles used by the examples: a text, a date, a categorical and two number columns. -/
def sampleProfiles : List ColMeta :=
  [ { name := "id", type := "text", sample := "a1", use := false,
      stats := { validCount := 4, total := 4, uniqueCount := some 4 } },
    { name := "region", type := "categorical", sample := "north", use := true,
      stats := { validCount := 4, total := 4, uniqueCount := some 2 } },
    { name := "day", type := "date", sample := "2024-01-01", use := true,
      stats := { validCount := 4, total := 4, uniqueCount := some 4 } },
    { name := "sales", type := "number", sample := "10", use := true,
      stats := { validCount := 4, total := 4, uniqueCount := some 4 } },
    { name := "cost", type := "number", sample := "7", use := true,
      stats := { validCount := 4, total := 4, uniqueCount := some 4 } } ]

/-- A host date parser that reads nothing beyond the ISO calendar dates. -/
def hostNone : String → Option Int := fun _ => none

/-- The four column types. -/
def columnTypes : List String := ["number", "date", "categorical", "text"]

/-- A dataset whose only column is numeric. -/
def singleNumericRows : List JSObj :=
  [[("amount", .str "10")], [("amount", .str "25")]]

/-- A dataset whose first key is the empty string, as a JSON file may hold. -/
def unnamedIndexRows : List JSObj :=
  [[("", .str "0"), ("city", .str "Oslo")], [("", .str "1"), ("city", .str "Rome")]]

/-- A small sales table: a date, a category and an amount. -/
def salesRows : List JSObj :=
  [[("day", .str "2024-01-01"), ("region", .str "north"), ("sales", .str "$1,200")],
   [("day", .str "2024-01-02"), ("region", .str "south"), ("sales", .num (.fin 95 1))],
   [("day", .str "2024-01-03"), ("region", .str "north"), ("sales", .str "N/A")],
   [("day", .str "2024-01-04"), ("region", .str "north"), ("sales", .str "310.5")]]

/-- The point `{x: Number(r[xcol]), y: Number(r[ycol])}` of a row. -/
def rowPoint (xcol ycol : JSVal) (r : JSObj) : Point :=
  { x := (r.getV xcol).toNum, y := (r.getV ycol).toNum }

/-- Whether both coordinates of a row convert to numbers other than `NaN`. -/
def rowNumeric (xcol ycol : JSVal) (r : JSObj) : Bool :=
  !(r.getV xcol).toNum.isNaN && !(r.getV ycol).toNum.isNaN

/-- Readings with one unusable value: numeric pairs, the third with a text y. -/
def scatterRows : List JSObj :=
  [[("height", .str "1.62"), ("weight", .num (.fin 58 0))],
   [("height", .str "1.75"), ("weight", .num (.fin 71 0))],
   [("height", .str "1.80"), ("weight", .str "unknown")],
   [("height", .str "1.68"), ("weight", .str "64.5")]]

/-- A daily series with a gap: the second day has no reading. -/
def gapRows : List JSObj :=
  [[("day", .str "2024-01-01"), ("sales", .str "120")],
   [("day", .str "2024-01-02"), ("sales", .str "N/A")],
   [("day", .str "2024-01-03"), ("sales", .str "95")]]

/-- The sampled values of a column: `sample.map((r) => r[col])`. -/
def columnValues (sample : List JSObj) (col : String) : List JSVal :=
  sample.map fun r => r.get col

/-- The non-empty sampled values of a column. -/
def nonEmptyValues (sample : List JSObj) (col : String) : List JSVal :=
  (columnValues sample col).filter isNonEmpty

/-- How many non-empty sampled values parse as a number once cleaned. -/
def parsedCount (sample : List JSObj) (col : String) : Nat :=
  (nonEmptyValues sample col).countP fun v => (numberValue v).isSome

/-- The four texts that mark an empty cell. -/
def emptyMarkers : List String := ["", "N/A", "NA", "-"]

/-- A value is empty: `null`, `undefined`, or a text that after trimming, and
with its case left as it is, equals one of the four markers. -/
def IsEmptyValue (v : JSVal) : Prop :=
  v = .undefined ∨ v = .null ∨ jsTrim v.toStr ∈ emptyMarkers

instance : DecidablePred IsEmptyValue := fun v => by
  unfold IsEmptyValue
  infer_instance

/-- The text is an ISO calendar date: four digits, a dash, two digits, a dash,
two digits. -/
def isIsoDateText (s : String) : Bool :=
  match s.data with
  | [y₁, y₂, y₃, y₄, '-', m₁, m₂, '-', d₁, d₂] =>
    [y₁, y₂, y₃, y₄, m₁, m₂, d₁, d₂].all isDigit
  | _ => false

/-- The value is a string holding an ISO calendar date. -/
def isIsoDateValue : JSVal → Bool
  | .str s => isIsoDateText s
  | _ => false

/-- A column that holds lower-case spellings of the empty markers only. -/
def naRows : List JSObj :=
  [[("status", .str "n/a")], [("status", .str "n/a")], [("status", .str "na")]]

/-- Twenty prices, nineteen of them numeric with a currency sign and a
thousands separator, one a text. -/
def priceRows : List JSObj :=
  List.replicate 19 [("price", .str "$1,250.00")] ++ [[("price", .str "pending")]]

/-- Dates with gaps: two ISO dates, an empty marker and a missing cell. -/
def dateRows : List JSObj :=
  [[("when", .str "2024-03-01"), ("what", .str "a")],
   [("when", .str "N/A"), ("what", .str "b")],
   [("what", .str "c")],
   [("when", .str "1999-12-31"), ("what", .str "d")]]

/-- The stringified x value of every row: the label each row carries. -/
def rowLabels (rows : List JSObj) (xcol : JSVal) : List String :=
  rows.map fun r => (r.getV xcol).toStr

/-- The effect of one assignment `o[k] = v` on the list of own keys. -/
def addKey (ks : List String) (k : String) : List String :=
  if k ∈ ks ∨ k = "__proto__" then ks else ks ++ [k]

/-- The numeric order of array index keys. -/
def indexLe (a b : String) : Prop := indexOfKey a ≤ indexOfKey b

instance : DecidableRel indexLe := fun a b => by
  unfold indexLe
  infer_instance

instance : IsTotal String indexLe := ⟨fun a b => Nat.le_total (indexOfKey a) (indexOfKey b)⟩

instance : IsTrans String indexLe := ⟨fun _ _ _ h₁ h₂ => Nat.le_trans h₁ h₂⟩

/-- Sizes ordered in a shop, some of them written as numbers. -/
def sizeRows : List JSObj :=
  [[("size", .str "XL"), ("qty", .str "1")],
   [("size", .str "10"), ("qty", .str "2")],
   [("size", .str "2"), ("qty", .str "3")],
   [("size", .str "XL"), ("qty", .str "4")],
   [("size", .str "10"), ("qty", .str "5")],
   [("size", .str "2"), ("qty", .str "6")]]

/-- The rows of the specification's example for the bar chart. -/
def letterRows : List JSObj :=
  [[("c", .str "A"), ("n", .num (.fin 1 0))],
   [("c", .str "B"), ("n", .num (.fin 2 0))],
   [("c", .str "A"), ("n", .num (.fin 3 0))]]

/-- Profiles of `letterRows` as the specification's example gives them. -/
def letterProfiles : List ColMeta :=
  [ { name := "c", type := "categorical", sample := "A", use := true,
      stats := { validCount := 3, total := 3, uniqueCount := some 2 } },
    { name := "n", type := "number", sample := "1", use := true,
      stats := { validCount := 3, total := 3, uniqueCount := some 3 } } ]

/-- Members of a class by kind, one kind being the word `constructor`. -/
def memberRows : List JSObj :=
  [[("kind", .str "constructor"), ("n", .num (.fin 1 0))],
   [("kind", .str "method"), ("n", .num (.fin 2 0))],
   [("kind", .str "constructor"), ("n", .num (.fin 3 0))],
   [("kind", .str "method"), ("n", .num (.fin 4 0))],
   [("kind", .str "__proto__"), ("n", .num (.fin 5 0))],
   [("kind", .str "__proto__"), ("n", .num (.fin 6 0))]]

/-- The value passes the date test: its trimmed text matches `datePatterns`,
or `Date.parse` reads it as a positive time while `Number` does not read it. -/
def PassesDateTest (host : String → Option Int) (v : JSVal) : Prop :=
  datePatterns (jsTrim v.toStr) = true ∨
    ∃ time, dateParse host (jsTrim v.toStr) = some time ∧ 0 < time ∧
      (JSNum.ofString (jsTrim v.toStr)).isNaN = true

/-- The number of distinct stringified non-empty sampled values of a column. -/
def distinctCount (sample : List JSObj) (col : String) : Nat :=
  ((nonEmptyValues sample col).map JSVal.toStr).dedup.length

/-- The numeric predicate: a non-empty value exists and at least nine tenths
of the non-empty values parse as numbers. -/
def NumericThreshold (sample : List JSObj) (col : String) : Prop :=
  0 < (nonEmptyValues sample col).length ∧
    9 * (nonEmptyValues sample col).length ≤ 10 * parsedCount sample col

/-- The date predicate: a non-empty value exists and every non-empty value
passes the date test. -/
def DateUnanimous (host : String → Option Int) (sample : List JSObj) (col : String) : Prop :=
  0 < (nonEmptyValues sample col).length ∧
    ∀ v ∈ nonEmptyValues sample col, PassesDateTest host v

/-- The cardinality predicate: with `u` distinct values among `n > 0` non-empty
ones out of `s` sampled rows, `u / n * 100 ≤ 50` and
`u ≤ min(20, max(5, floor(s / 2)))`. -/
def CardinalityBound (sample : List JSObj) (col : String) : Prop :=
  0 < (nonEmptyValues sample col).length ∧
    100 * distinctCount sample col ≤ 50 * (nonEmptyValues sample col).length ∧
    distinctCount sample col ≤ min 20 (max 5 (sample.length / 2))

/-- Ten sampled cells of a column `when`: nine ISO dates and one word. -/
def mixedDateRows : List JSObj :=
  List.replicate 9 [("when", .str "2024-05-17")] ++ [[("when", .str "soon")]]

/-- A column `note` that holds nothing but empty cells: `null`, blanks, the
empty markers and a missing cell. -/
def blankRows : List JSObj :=
  [[("id", .str "a"), ("note", .null)],
   [("id", .str "b"), ("note", .str "  ")],
   [("id", .str "c"), ("note", .str "N/A")],
   [("id", .str "d")],
   [("id", .str "e"), ("note", .str "-")]]

/-- The profile of a column without any non-empty sampled value. -/
def emptyProfile (col : String) (total : Nat) : ColMeta :=
  { name := col, type := "text", sample := "", use := false,
    stats := { validCount := 0, total := total, uniqueCount := none } }

instance (sample : List JSObj) (col : String) : Decidable (NumericThreshold sample col) := by
  unfold NumericThreshold
  infer_instance

instance (sample : List JSObj) (col : String) : Decidable (CardinalityBound sample col) := by
  unfold CardinalityBound
  infer_instance

/-- Thirty rows of a column `grade` that takes the six values 1 to 6, five times each. -/
def gradeRows : List JSObj :=
  (List.replicate 5
    [[("grade", JSVal.str "1")], [("grade", .str "2")], [("grade", .str "3")],
     [("grade", .str "4")], [("grade", .str "5")], [("grade", .str "6")]]).flatten

/-- Thirty rows of a column `shift` that takes six ISO dates, five times each. -/
def shiftRows : List JSObj :=
  (List.replicate 5
    [[("shift", JSVal.str "2024-06-01")], [("shift", .str "2024-06-02")],
     [("shift", .str "2024-06-03")], [("shift", .str "2024-06-04")],
     [("shift", .str "2024-06-05")], [("shift", .str "2024-06-06")]]).flatten

/-- Thirty rows of a column `colour` that takes six colour names, five times each. -/
def colourRows : List JSObj :=
  (List.replicate 5
    [[("colour", JSVal.str "red")], [("colour", .str "green")], [("colour", .str "blue")],
     [("colour", .str "black")], [("colour", .str "white")], [("colour", .str "grey")]]).flatten

/-- Race results in which the second row lacks the key `constructor`. -/
def raceRows : List JSObj :=
  [[("constructor", .str "Ferrari"), ("points", .str "25")],
   [("points", .str "18")]]

/-- Two rows whose second row lacks the key `team` and has a key of its own. -/
def teamRows : List JSObj :=
  [[("team", .str "Ferrari"), ("points", .str "25")],
   [("points", .str "18"), ("laps", .str "57")]]

/-- The profiles `a` and `b` are the first two of `l`, in profile order,
whose type is `t`. -/
def FirstTwoOfType (t : String) (a b : ColMeta) (l : List ColMeta) : Prop :=
  ∃ pre mid post, l = pre ++ a :: (mid ++ b :: post) ∧ a.type = t ∧ b.type = t ∧
    (∀ c ∈ pre, c.type ≠ t) ∧ (∀ c ∈ mid, c.type ≠ t)

/-- The profile `c` is the first of `l`, in profile order, whose type is
categorical or text. -/
def FirstCategoricalOrText (c : ColMeta) (l : List ColMeta) : Prop :=
  ∃ pre post, l = pre ++ c :: post ∧ (c.type = "categorical" ∨ c.type = "text") ∧
    ∀ a ∈ pre, a.type ≠ "categorical" ∧ a.type ≠ "text"

/-- The last return of `suggestChart`: no suitable columns. -/
def noSuitableColumns : Suggestion :=
  { type := "table", reason := "no suitable columns - use data explorer", x := .undefined,
    y := .undefined, viewType := some "explorer" }

/-- Profiles without a number column: a categorical and a date column. -/
def eventProfiles : List ColMeta :=
  [ { name := "venue", type := "categorical", sample := "hall", use := true,
      stats := { validCount := 4, total := 4, uniqueCount := some 2 } },
    { name := "day", type := "date", sample := "2024-01-01", use := true,
      stats := { validCount := 4, total := 4, uniqueCount := some 4 } } ]

/-- Profiles without a date column: a text, a number, a categorical and a
second number column. -/
def shopProfiles : List ColMeta :=
  [ { name := "sku", type := "text", sample := "a1", use := false,
      stats := { validCount := 4, total := 4, uniqueCount := some 4 } },
    { name := "price", type := "number", sample := "10", use := true,
      stats := { validCount := 4, total := 4, uniqueCount := some 4 } },
    { name := "aisle", type := "categorical", sample := "north", use := true,
      stats := { validCount := 4, total := 4, uniqueCount := some 2 } },
    { name := "stock", type := "number", sample := "7", use := true,
      stats := { validCount := 4, total := 4, uniqueCount := some 4 } } ]

/-- Profiles with two number columns around a text column. -/
def sensorProfiles : List ColMeta :=
  [ { name := "temp", type := "number", sample := "21", use := true,
      stats := { validCount := 4, total := 4, uniqueCount := some 4 } },
    { name := "site", type := "text", sample := "a", use := false,
      stats := { validCount := 4, total := 4, uniqueCount := some 4 } },
    { name := "humidity", type := "number", sample := "40", use := true,
      stats := { validCount := 4, total := 4, uniqueCount := some 4 } } ]

/-- Profiles with one number column after two text columns. -/
def ledgerProfiles : List ColMeta :=
  [ { name := "payee", type := "text", sample := "a", use := false,
      stats := { validCount := 4, total := 4, uniqueCount := some 4 } },
    { name := "memo", type := "text", sample := "b", use := false,
      stats := { validCount := 4, total := 4, uniqueCount := some 4 } },
    { name := "amount", type := "number", sample := "40", use := true,
      stats := { validCount := 4, total := 4, uniqueCount := some 4 } } ]

/-- The last return of the automatic branch: no numeric columns. -/
def noNumericColumns : Suggestion :=
  { type := "table", reason := "no numeric columns - use data explorer", x := .undefined,
    y := .undefined, viewType := some "explorer" }

/-- Profiles of a log: two date columns and a text column, no number column. -/
def logProfiles : List ColMeta :=
  [ { name := "note", type := "text", sample := "a", use := false,
      stats := { validCount := 4, total := 4, uniqueCount := some 4 } },
    { name := "opened", type := "date", sample := "2024-01-01", use := true,
      stats := { validCount := 4, total := 4, uniqueCount := some 4 } },
    { name := "closed", type := "date", sample := "2024-01-02", use := true,
      stats := { validCount := 4, total := 4, uniqueCount := some 4 } } ]

/-- The value is absent (`null` or `undefined`) or the name of a profile. -/
def AbsentOrName (colsMeta : List ColMeta) (v : JSVal) : Prop :=
  v = .null ∨ v = .undefined ∨ ∃ a ∈ colsMeta, v = .str a.name

/-- A suggestion is well typed for a profile sequence: a line, bar or scatter
chart has for x and y the names of profiles, y naming a number; a line has a
date x, a scatter a number x; an x or y that a pie or table carries is the
name of a profile. -/
def WellTyped (colsMeta : List ColMeta) (s : Suggestion) : Prop :=
  (s.type = "line" ∨ s.type = "bar" ∨ s.type = "scatter" →
    (∃ a ∈ colsMeta, s.x = .str a.name) ∧
    (∃ b ∈ colsMeta, s.y = .str b.name ∧ b.type = "number")) ∧
  (s.type = "line" → ∃ a ∈ colsMeta, s.x = .str a.name ∧ a.type = "date") ∧
  (s.type = "scatter" → ∃ a ∈ colsMeta, s.x = .str a.name ∧ a.type = "number") ∧
  (s.type = "pie" ∨ s.type = "table" →
    AbsentOrName colsMeta s.x ∧ AbsentOrName colsMeta s.y) ∧
  s.type ∈ ["line", "bar", "scatter", "pie", "table"]

/-- Control reaches the sixth rule of the automatic branch: the guards of the
first five rules (source lines 117-143) are all false. -/
def reachesRuleSix (colsMeta : List ColMeta) : Prop :=
  let dateCol := colsMeta.find? fun c => c.type == "date"
  let numberCols := colsMeta.filter fun c => c.type == "number"
  let categoricalCols := colsMeta.filter fun c => c.type == "categorical"
  let textCols := colsMeta.filter fun c => c.type == "text"
  ¬ (dateCol.isSome ∧ numberCols.length > 0) ∧
  ¬ (categoricalCols.length > 0 ∧ numberCols.length > 0) ∧
  ¬ (numberCols.length ≥ 2) ∧
  ¬ (numberCols.length = 1 ∧ (categoricalCols.length > 0 ∨ textCols.length > 0)) ∧
  ¬ (categoricalCols.length > 0 ∧ numberCols.length = 0)

instance (colsMeta : List ColMeta) : Decidable (reachesRuleSix colsMeta) := by
  unfold reachesRuleSix
  infer_instance

/-- Four rows whose first key is the empty string, as a JSON file may hold:
the unnamed column takes two values twice each, the column `n` is numeric. -/
def unnamedGroupRows : List JSObj :=
  [[("", .str "a"), ("n", .str "1")], [("", .str "a"), ("n", .str "2")],
   [("", .str "b"), ("n", .str "3")], [("", .str "b"), ("n", .str "4")]]

/-- Payments by payer: the second row has a `null` payer, the third has none. -/
def payerRows : List JSObj :=
  [[("who", .str "ann"), ("paid", .str "10")],
   [("who", .null), ("paid", .str "20")],
   [("paid", .str "30")]]

/-- Members of a class by kind only: the column `kind` of `memberRows`. -/
def kindRows : List JSObj :=
  [[("kind", .str "constructor")], [("kind", .str "method")], [("kind", .str "constructor")],
   [("kind", .str "method")], [("kind", .str "__proto__")], [("kind", .str "__proto__")]]

/-- The key of a row in the frequency branch:
`String(r[xcol] ?? r[ycol] ?? "unknown")`. -/
def countKey (xcol ycol : JSVal) (r : JSObj) : String :=
  (JSVal.nullish (JSVal.nullish (r.getV xcol) (r.getV ycol)) (.str "unknown")).toStr

/-! ## Response validation: `validateAPIResponse` of `utils/validation.js` -/

/-- Any JavaScript value an API call may hand over: the primitives, and
objects with their own properties in creation order; `callable` marks a
function object. Objects inherit from `Object.prototype` only. -/
inductive JSAny where
  | undefined
  | null
  | bool (b : Bool)
  | num (n : JSNum)
  | bigint (z : Int)
  | str (s : String)
  | symbol (description : String)
  | object (callable : Bool) (props : List (String × JSAny))

namespace JSAny

/-- Truthiness, as tested by `!v`. -/
def truthy : JSAny → Bool
  | undefined => false
  | null => false
  | bool b => b
  | num n => n.truthy
  | bigint z => z != 0
  | str s => s != ""
  | symbol _ => true
  | object _ _ => true

/-- The operator `typeof v`. -/
def typeOf : JSAny → String
  | undefined => "undefined"
  | null => "object"
  | bool _ => "boolean"
  | num _ => "number"
  | bigint _ => "bigint"
  | str _ => "string"
  | symbol _ => "symbol"
  | object callable _ => if callable then "function" else "object"

end JSAny

/-- What a function of `utils/validation.js` throws: an `AppError` with its
`message`, `statusCode` and `type` (its `isOperational` is always `true`; the
timestamp and the stack are left out), or the `TypeError` of the runtime. -/
inductive Thrown where
  | appError (message : String) (statusCode : Nat) (type : String)
  | typeError
  deriving DecidableEq, Repr

/-- The operator `key in v`: a `TypeError` unless `v` is an object, else
whether `key` is an own or an inherited property name. -/
def hasProperty (key : String) : JSAny → Except Thrown Bool
  | .object _ props => .ok (decide (key ∈ props.map Prod.fst) || decide (key ∈ protoKeys))
  | _ => .error .typeError

/-- The loop `for (const field of requiredFields)`: the test `!field in
response` negates the field name first and looks the resulting `true` or
`false` up in the response. -/
def checkRequiredFields (response : JSAny) : List String → Except Thrown Bool
  | [] => .ok true
  | field :: rest =>
    match hasProperty (JSVal.bool (!(JSVal.str field).truthy)).toStr response with
    | .error e => .error e
    | .ok true => .error (.appError ("Missing required field: " ++ field) 500 "API_ERROR")
    | .ok false => checkRequiredFields response rest

/-- The function `validateAPIResponse`; the field names are strings. -/
def validateAPIResponse (response : JSAny) (requiredFields : List String) :
    Except Thrown Bool :=
  if !response.truthy || response.typeOf != "Object" then
    .error (.appError "Invalid API response" 500 "API_ERROR")
  else checkRequiredFields response requiredFields

/-- A plain object response that holds the fields `temp` and `city`. -/
def weatherResponse : JSAny :=
  .object false [("temp", .num (.fin 21 0)), ("city", .str "Oslo")]

/-! # Theorems -/

/-! ## Lemmas on lists of profiles -/

theorem head?_filter_eq_find? {α : Type} (p : α → Bool) (l : List α) :
    (l.filter p).head? = l.find? p := by
  induction l with
  | nil => rfl
  | cons a l ih => by_cases h : p a <;> simp [List.filter, List.find?, h, ih]

theorem find?_type_eq_some {t : String} {c : ColMeta} {l : List ColMeta}
    (h : l.find? (fun c => c.type == t) = some c) : FirstOfType t c l := by
  rw [List.find?_eq_some] at h
  obtain ⟨hc, pre, post, hl, hpre⟩ := h
  refine ⟨pre, post, hl, by simpa using hc, ?_⟩
  intro a ha
  simpa using hpre a ha

theorem filter_type_eq_cons {t : String} {c : ColMeta} {l rest : List ColMeta}
    (h : l.filter (fun c => c.type == t) = c :: rest) : FirstOfType t c l := by
  apply find?_type_eq_some
  rw [← head?_filter_eq_find?, h]
  rfl

theorem exists_find?_type {t : String} {l : List ColMeta} (h : ∃ c ∈ l, c.type = t) :
    ∃ d, l.find? (fun c => c.type == t) = some d := by
  obtain ⟨c, hc, ht⟩ := h
  have : (l.find? (fun c => c.type == t)).isSome := by
    rw [List.find?_isSome]
    exact ⟨c, hc, by simpa using ht⟩
  exact Option.isSome_iff_exists.mp this

theorem exists_filter_type_cons {t : String} {l : List ColMeta} (h : ∃ c ∈ l, c.type = t) :
    ∃ n rest, l.filter (fun c => c.type == t) = n :: rest := by
  obtain ⟨c, hc, ht⟩ := h
  have hm : c ∈ l.filter (fun c => c.type == t) := by
    rw [List.mem_filter]
    exact ⟨hc, by simpa using ht⟩
  cases hf : l.filter (fun c => c.type == t) with
  | nil => rw [hf] at hm; cases hm
  | cons n rest => exact ⟨n, rest, rfl⟩

/-! ## Chart advisor: automatic mode -/

/-- C1: in auto mode (neither selection names a profile), a profile sequence
with a date column and a number column gets the suggestion `line` with x the
first date column and y the first number column, whatever else it holds. -/
theorem suggestChart_auto_date_number (colsMeta : List ColMeta) (selectedX selectedY : JSVal)
    (hx : findByName colsMeta selectedX = none) (hy : findByName colsMeta selectedY = none)
    (hd : ∃ c ∈ colsMeta, c.type = "date") (hn : ∃ c ∈ colsMeta, c.type = "number") :
    ∃ d n, FirstOfType "date" d colsMeta ∧ FirstOfType "number" n colsMeta ∧
      suggestChart colsMeta selectedX selectedY =
        { type := "line", reason := "time series data", x := .str d.name, y := .str n.name,
          viewType := none } := by
  obtain ⟨d, hd'⟩ := exists_find?_type hd
  obtain ⟨n, rest, hn'⟩ := exists_filter_type_cons hn
  refine ⟨d, n, find?_type_eq_some hd', filter_type_eq_cons hn', ?_⟩
  simp only [suggestChart, hx, hy, suggestRest, suggestAuto, hd', hn']

/-- C1 at `sampleProfiles` with both selections empty. -/
theorem suggestChart_auto_date_number_witness :
    ∃ d n, FirstOfType "date" d sampleProfiles ∧ FirstOfType "number" n sampleProfiles ∧
      suggestChart sampleProfiles (.str "") (.str "") =
        { type := "line", reason := "time series data", x := .str d.name, y := .str n.name,
          viewType := none } :=
  suggestChart_auto_date_number sampleProfiles (.str "") (.str "") (by decide) (by decide)
    ⟨sampleProfiles.get ⟨2, by decide⟩, by decide, by decide⟩
    ⟨sampleProfiles.get ⟨3, by decide⟩, by decide, by decide⟩

/-! ## The pipeline profile, suggest, build -/

theorem detectColumn_name (host : String → Option Int) (sample : List JSObj) (col : String) :
    (detectColumn host sample col).name = col := by
  simp only [detectColumn]
  split_ifs <;> rfl

theorem detectColumn_type_mem (host : String → Option Int) (sample : List JSObj) (col : String) :
    (detectColumn host sample col).type ∈ columnTypes := by
  simp only [detectColumn, columnType]
  split_ifs <;> simp [columnTypes]

theorem detectColumnsFromData_type_mem (host : String → Option Int) (data : Option (List JSObj))
    (c : ColMeta) (hc : c ∈ detectColumnsFromData host data) : c.type ∈ columnTypes := by
  unfold detectColumnsFromData at hc
  split at hc
  · cases hc
  · split at hc
    · cases hc
    · rw [List.mem_map] at hc
      obtain ⟨col, _, rfl⟩ := hc
      exact detectColumn_type_mem host _ col

theorem findByName_undefined (colsMeta : List ColMeta) :
    findByName colsMeta .undefined = none := by
  unfold findByName
  rw [List.find?_eq_none]
  intro c _
  simp

/-- The automatic branch on profiles of the four types, one of them a number
and at least two in all: a line, bar or scatter chart over two named columns. -/
theorem suggestAuto_chartable (colsMeta : List ColMeta)
    (ht : ∀ c ∈ colsMeta, c.type ∈ columnTypes) (hn : ∃ c ∈ colsMeta, c.type = "number")
    (hl : 2 ≤ colsMeta.length) :
    ∃ a ∈ colsMeta, ∃ b ∈ colsMeta, (suggestAuto colsMeta).x = .str a.name ∧
      (suggestAuto colsMeta).y = .str b.name ∧
      (suggestAuto colsMeta).type ∈ ["line", "bar", "scatter"] := by
  obtain ⟨n, rest, hnum⟩ := exists_filter_type_cons hn
  have hnmem : n ∈ colsMeta := by
    have : n ∈ colsMeta.filter (fun c => c.type == "number") := by rw [hnum]; simp
    exact (List.mem_filter.mp this).1
  cases hdate : colsMeta.find? (fun c => c.type == "date") with
  | some d =>
    refine ⟨d, List.mem_of_find?_eq_some hdate, n, hnmem, ?_⟩
    simp [suggestAuto, hdate, hnum]
  | none =>
    cases hcat : colsMeta.filter (fun c => c.type == "categorical") with
    | cons c crest =>
      have hcmem : c ∈ colsMeta := by
        have : c ∈ colsMeta.filter (fun c => c.type == "categorical") := by rw [hcat]; simp
        exact (List.mem_filter.mp this).1
      refine ⟨c, hcmem, n, hnmem, ?_⟩
      simp [suggestAuto, hdate, hnum, hcat]
    | nil =>
      cases rest with
      | cons n₁ rest₁ =>
        have hn₁ : n₁ ∈ colsMeta := by
          have : n₁ ∈ colsMeta.filter (fun c => c.type == "number") := by rw [hnum]; simp
          exact (List.mem_filter.mp this).1
        refine ⟨n, hnmem, n₁, hn₁, ?_⟩
        simp [suggestAuto, hdate, hnum, hcat]
      | nil =>
        have hother : ∃ c ∈ colsMeta, c.type ≠ "number" := by
          by_contra hall
          push_neg at hall
          have hfil : colsMeta.filter (fun c => c.type == "number") = colsMeta := by
            rw [List.filter_eq_self]
            intro c hc
            simpa using hall c hc
          rw [hfil] at hnum
          rw [hnum] at hl
          simp at hl
        obtain ⟨c, hc, hcn⟩ := hother
        have hctext : c.type = "text" := by
          have h4 := ht c hc
          simp only [columnTypes, List.mem_cons, List.mem_singleton, List.not_mem_nil,
            or_false] at h4
          rcases h4 with h | h | h | h
          · exact absurd h hcn
          · rw [List.find?_eq_none] at hdate
            exact absurd (by simpa using h) (hdate c hc)
          · have : c ∈ colsMeta.filter (fun c => c.type == "categorical") := by
              rw [List.mem_filter]; exact ⟨hc, by simpa using h⟩
            rw [hcat] at this; cases this
          · exact h
        obtain ⟨t, trest, htext⟩ := exists_filter_type_cons ⟨c, hc, hctext⟩
        have htmem : t ∈ colsMeta := by
          have : t ∈ colsMeta.filter (fun c => c.type == "text") := by rw [htext]; simp
          exact (List.mem_filter.mp this).1
        refine ⟨t, htmem, n, hnmem, ?_⟩
        simp [suggestAuto, hdate, hnum, hcat, htext]

/-- The series builder on non-empty rows, two non-empty column names and a
line, bar or scatter chart returns a payload. -/
theorem buildChartData_isSome (host : String → Option Int) (rows : List JSObj)
    (xcol ycol chartType : String) (colsMeta : List ColMeta) (hr : rows ≠ [])
    (hx : xcol ≠ "") (hy : ycol ≠ "") (ht : chartType ∈ ["line", "bar", "scatter"]) :
    (buildChartData host (some rows) (.str xcol) (.str ycol) chartType colsMeta).isSome := by
  have hlen : rows.length ≠ 0 := by
    intro h; exact hr (List.length_eq_zero.mp h)
  simp only [List.mem_cons, List.mem_singleton, List.not_mem_nil, or_false] at ht
  unfold buildChartData
  rcases ht with rfl | rfl | rfl
  all_goals
    simp only [hlen, if_false, JSVal.truthy, bne_iff_ne, ne_eq, hx, hy, not_false_eq_true,
      decide_True, Bool.not_true, Bool.or_false, Bool.false_and, Bool.false_eq_true]
    repeat' split
    all_goals first | rfl | (exfalso; revert ‹_›; decide) | simp_all

/-- C2, as stated, fails: a dataset whose only column is numeric has a number
profile, gets the table suggestion without axes, and the builder returns
`null`; so does a dataset whose number column has the empty name. -/
theorem pipeline_null_counterexample :
    ((∃ c ∈ detectColumnsFromData hostNone (some singleNumericRows), c.type = "number") ∧
      buildChartData hostNone (some singleNumericRows)
        (suggestChart (detectColumnsFromData hostNone (some singleNumericRows))
          .undefined .undefined).x
        (suggestChart (detectColumnsFromData hostNone (some singleNumericRows))
          .undefined .undefined).y
        (suggestChart (detectColumnsFromData hostNone (some singleNumericRows))
          .undefined .undefined).type
        (detectColumnsFromData hostNone (some singleNumericRows)) = none) ∧
    ((∃ c ∈ detectColumnsFromData hostNone (some unnamedIndexRows), c.type = "number") ∧
      buildChartData hostNone (some unnamedIndexRows)
        (suggestChart (detectColumnsFromData hostNone (some unnamedIndexRows))
          .undefined .undefined).x
        (suggestChart (detectColumnsFromData hostNone (some unnamedIndexRows))
          .undefined .undefined).y
        (suggestChart (detectColumnsFromData hostNone (some unnamedIndexRows))
          .undefined .undefined).type
        (detectColumnsFromData hostNone (some unnamedIndexRows)) = none) := by
  decide

/-- C2, amended: for non-empty rows whose profiles hold a number column and at
least one more column, all with non-empty names, profiling, suggesting with no
axis selected and building returns a payload (the functions are total: nothing
throws). -/
theorem pipeline_returns_payload (host : String → Option Int) (rows : List JSObj)
    (selectedX selectedY : JSVal) (hr : rows ≠ [])
    (hx : findByName (detectColumnsFromData host (some rows)) selectedX = none)
    (hy : findByName (detectColumnsFromData host (some rows)) selectedY = none)
    (hn : ∃ c ∈ detectColumnsFromData host (some rows), c.type = "number")
    (hl : 2 ≤ (detectColumnsFromData host (some rows)).length)
    (hnames : ∀ c ∈ detectColumnsFromData host (some rows), c.name ≠ "") :
    (buildChartData host (some rows)
      (suggestChart (detectColumnsFromData host (some rows)) selectedX selectedY).x
      (suggestChart (detectColumnsFromData host (some rows)) selectedX selectedY).y
      (suggestChart (detectColumnsFromData host (some rows)) selectedX selectedY).type
      (detectColumnsFromData host (some rows))).isSome = true := by
  have hs : suggestChart (detectColumnsFromData host (some rows)) selectedX selectedY =
      suggestAuto (detectColumnsFromData host (some rows)) := by
    simp only [suggestChart, hx, hy, suggestRest]
  obtain ⟨a, ha, b, hb, hxa, hyb, hty⟩ := suggestAuto_chartable _
    (detectColumnsFromData_type_mem host (some rows)) hn hl
  rw [hs, hxa, hyb]
  exact buildChartData_isSome host rows a.name b.name _ _ hr (hnames a ha) (hnames b hb) hty

/-- C2 amended, at `salesRows` with nothing selected. -/
theorem pipeline_returns_payload_witness :
    (buildChartData hostNone (some salesRows)
      (suggestChart (detectColumnsFromData hostNone (some salesRows)) .undefined .undefined).x
      (suggestChart (detectColumnsFromData hostNone (some salesRows)) .undefined .undefined).y
      (suggestChart (detectColumnsFromData hostNone (some salesRows)) .undefined .undefined).type
      (detectColumnsFromData hostNone (some salesRows))).isSome = true :=
  pipeline_returns_payload hostNone salesRows .undefined .undefined (by decide) (by decide)
    (by decide) (by decide) (by decide) (by decide)

/-! ## Series builder: scatter -/

theorem filterMap_scatterPoint (xcol ycol : JSVal) (rows : List JSObj) :
    rows.filterMap (scatterPoint xcol ycol) =
      (rows.filter (rowNumeric xcol ycol)).map (rowPoint xcol ycol) := by
  induction rows with
  | nil => rfl
  | cons r rows ih =>
    rw [List.filterMap_cons]
    cases hx : (r.getV xcol).toNum.isNaN <;> cases hy : (r.getV ycol).toNum.isNaN <;>
      simp [scatterPoint, rowNumeric, rowPoint, hx, hy, ih]

theorem buildChartData_scatter_eq (host : String → Option Int) (rows : List JSObj)
    (xcol ycol : JSVal) (colsMeta : List ColMeta) (hr : rows ≠ [])
    (hx : xcol.truthy = true) (hy : ycol.truthy = true) :
    buildChartData host (some rows) xcol ycol "scatter" colsMeta =
      some { labels := none, label := .str (ycol.toStr ++ " vs " ++ xcol.toStr),
             data := .points ((rows.filter (rowNumeric xcol ycol)).map (rowPoint xcol ycol)) } := by
  have hlen : rows.length ≠ 0 := fun h => hr (List.length_eq_zero.mp h)
  have hp : ("scatter" = "pie") = False := by decide
  simp [buildChartData, hlen, hx, hy, hp, filterMap_scatterPoint]

/-- C5: for `scatter`, on non-empty rows and two given columns, the builder
returns a payload whose points are, in row order, the points
`(Number(row[xcol]), Number(row[ycol]))` of the rows with neither coordinate
`NaN`; if one row has a `NaN` y and all others are numeric, the points are
those of the rows with that row removed, one fewer than the rows. -/
theorem buildChartData_scatter (host : String → Option Int) (rows : List JSObj)
    (xcol ycol : JSVal) (colsMeta : List ColMeta) (hr : rows ≠ [])
    (hx : xcol.truthy = true) (hy : ycol.truthy = true) :
    ∃ payload, buildChartData host (some rows) xcol ycol "scatter" colsMeta = some payload ∧
      payload.data =
        .points ((rows.filter (rowNumeric xcol ycol)).map (rowPoint xcol ycol)) ∧
      ∀ pre r post, rows = pre ++ r :: post → (r.getV ycol).toNum.isNaN = true →
        (∀ q ∈ pre ++ post, rowNumeric xcol ycol q = true) →
        payload.data = .points ((pre ++ post).map (rowPoint xcol ycol)) ∧
        ((pre ++ post).map (rowPoint xcol ycol)).length = rows.length - 1 := by
  refine ⟨_, buildChartData_scatter_eq host rows xcol ycol colsMeta hr hx hy, rfl, ?_⟩
  intro pre r post hrows hnan hrest
  have hr' : rowNumeric xcol ycol r = false := by simp [rowNumeric, hnan]
  have hpre : pre.filter (rowNumeric xcol ycol) = pre :=
    List.filter_eq_self.mpr fun q hq => hrest q (List.mem_append_left _ hq)
  have hpost : post.filter (rowNumeric xcol ycol) = post :=
    List.filter_eq_self.mpr fun q hq => hrest q (List.mem_append_right _ hq)
  subst hrows
  constructor
  · simp [List.filter_append, List.filter_cons, hr', hpre, hpost]
  · simp

/-- C5 at `scatterRows`, where the third row has a text weight. -/
theorem buildChartData_scatter_witness :
    ∃ payload, buildChartData hostNone (some scatterRows) (.str "height") (.str "weight")
        "scatter" [] = some payload ∧
      payload.data = .points ((scatterRows.filter
        (rowNumeric (.str "height") (.str "weight"))).map
          (rowPoint (.str "height") (.str "weight"))) ∧
      ∀ pre r post, scatterRows = pre ++ r :: post →
        (r.getV (.str "weight")).toNum.isNaN = true →
        (∀ q ∈ pre ++ post, rowNumeric (.str "height") (.str "weight") q = true) →
        payload.data = .points ((pre ++ post).map (rowPoint (.str "height") (.str "weight"))) ∧
        ((pre ++ post).map (rowPoint (.str "height") (.str "weight"))).length =
          scatterRows.length - 1 :=
  buildChartData_scatter hostNone scatterRows (.str "height") (.str "weight") []
    (by decide) (by decide) (by decide)

/-! ## Series builder: line over a date column -/

/-- C6, evaluated on `gapRows` with the profiles and the suggestion the engine
itself computes: the row whose y cell is not a number is not excluded, its
point is emitted with y `NaN`. -/
theorem buildChartData_line_date_nan :
    (suggestChart (detectColumnsFromData hostNone (some gapRows)) .undefined .undefined).type
        = "line" ∧
      buildChartData hostNone (some gapRows) (.str "day") (.str "sales") "line"
        (detectColumnsFromData hostNone (some gapRows)) =
      some { labels := none, label := .str "sales",
             data := .points [ { x := .fin 17040672 5, y := .fin 12 1 },
                               { x := .fin 17041536 5, y := .nan },
                               { x := .fin 170424 7, y := .fin 95 0 } ] } := by
  decide

/-! ## Series builder: null results -/

/-- C7: the builder returns `null` for `null` or empty rows whatever the
chart type and columns, and for a falsy (missing) x or y column unless the
chart type is `pie`; for `pie` on non-empty rows it returns a payload even
when a column is missing. -/
theorem buildChartData_null_cases :
    (∀ host xcol ycol chartType colsMeta,
      buildChartData host none xcol ycol chartType colsMeta = none) ∧
    (∀ host xcol ycol chartType colsMeta,
      buildChartData host (some []) xcol ycol chartType colsMeta = none) ∧
    (∀ host rows xcol ycol chartType colsMeta,
      (xcol.truthy = false ∨ ycol.truthy = false) → chartType ≠ "pie" →
      buildChartData host (some rows) xcol ycol chartType colsMeta = none) ∧
    (∀ host rows xcol ycol colsMeta, rows ≠ [] →
      (buildChartData host (some rows) xcol ycol "pie" colsMeta).isSome = true) := by
  refine ⟨fun _ _ _ _ _ => rfl, fun _ _ _ _ _ => rfl, ?_, ?_⟩
  · intro host rows xcol ycol chartType colsMeta hmiss hpie
    unfold buildChartData
    by_cases hlen : rows.length = 0
    · simp [hlen]
    · have : ((!xcol.truthy || !ycol.truthy) && chartType != "pie") = true := by
        rcases hmiss with h | h <;> simp [h, hpie]
      simp [hlen, this]
  · intro host rows xcol ycol colsMeta hr
    have hlen : rows.length ≠ 0 := fun h => hr (List.length_eq_zero.mp h)
    unfold buildChartData
    simp only [hlen, if_false, bne_self_eq_false, Bool.and_false, Bool.false_eq_true, if_true]
    split <;> rfl

/-! ## Column profiler: the emptiness filter -/

theorem isNonEmpty_eq_false_iff (v : JSVal) : isNonEmpty v = false ↔ IsEmptyValue v := by
  cases v <;> simp [isNonEmpty, IsEmptyValue, emptyMarkers, bne_iff_ne] <;> tauto

theorem detectColumn_validCount_eq (host : String → Option Int) (sample : List JSObj)
    (col : String) :
    (detectColumn host sample col).stats.validCount = (nonEmptyValues sample col).length := by
  simp only [detectColumn, nonEmptyValues, columnValues]
  split_ifs with h
  · exact h.symm
  · rfl

/-- C8, as stated, fails: the lower-case spellings are not empty values; a
column holding only `n/a` and `na` has them all in `validCount`. -/
theorem validCount_lowercase_counterexample :
    isNonEmpty (.str "n/a") = true ∧ isNonEmpty (.str "na") = true ∧
      (detectColumnsFromData hostNone (some naRows)).map (fun c => c.stats.validCount) = [3] := by
  decide

/-- C8, amended: a sampled value is filtered out as empty exactly when it is
`null` or `undefined` or its trimmed text, case untouched, is one of the
four markers; `validCount` counts the other sampled values, among them the
lower- and mixed-case spellings of the markers. -/
theorem isNonEmpty_exact (host : String → Option Int) (sample : List JSObj) (col : String) :
    (∀ v, isNonEmpty v = false ↔ IsEmptyValue v) ∧
    (detectColumn host sample col).stats.validCount =
      (columnValues sample col).countP (fun v => decide (¬ IsEmptyValue v)) ∧
    (∀ s ∈ ["n/a", "na", "Na", "N/a", " n/A "], ¬ IsEmptyValue (.str s)) := by
  refine ⟨isNonEmpty_eq_false_iff, ?_, by decide⟩
  rw [detectColumn_validCount_eq, nonEmptyValues, ← List.countP_eq_length_filter]
  congr 1
  funext v
  have h := isNonEmpty_eq_false_iff v
  by_cases hv : IsEmptyValue v
  · simp [hv, h.mpr hv]
  · cases hne : isNonEmpty v with
    | true => simp [hv]
    | false => exact absurd (h.mp hne) hv

/-! ## Column profiler: the numeric test -/

theorem detectColumn_type_eq (host : String → Option Int) (sample : List JSObj) (col : String) :
    (detectColumn host sample col).type =
      if (nonEmptyValues sample col).length = 0 then "text"
      else columnType host sample.length (nonEmptyValues sample col) := by
  simp only [detectColumn, nonEmptyValues, columnValues]
  split_ifs <;> rfl

theorem columnType_eq_number_iff (host : String → Option Int) (k : Nat) (nonEmpty : List JSVal) :
    columnType host k nonEmpty = "number" ↔ isNumber nonEmpty = true := by
  unfold columnType
  split_ifs with h₁ h₂ h₃
  · simp [h₁]
  · simp only [h₁]; decide
  · simp only [h₁]; decide
  · simp only [h₁]; decide

theorem validNumbers_length (nonEmpty : List JSVal) :
    (validNumbers nonEmpty).length = nonEmpty.countP fun v => (numberValue v).isSome := by
  unfold validNumbers
  induction nonEmpty with
  | nil => rfl
  | cons v vs ih =>
    cases h : (numberValue v).isSome <;> simp [List.filter_cons, List.countP_cons, h, ih]

theorem dropGroupCommas_of_no_comma (cs : List Char) (h : ',' ∉ cs) :
    dropGroupCommas cs = cs := by
  induction cs using dropGroupCommas.induct with
  | case1 => rfl
  | case2 c d₁ d₂ d₃ rest hc ih =>
    have : c = ',' := by
      simp only [Bool.and_eq_true, decide_eq_true_eq] at hc
      exact hc.1.1.1
    exact absurd (by simp [this]) h
  | case3 c d₁ d₂ d₃ rest hc ih =>
    rw [dropGroupCommas, if_neg hc, ih]
    intro hmem
    exact h (List.mem_cons_of_mem _ hmem)
  | case4 c tl hne ih =>
    rw [dropGroupCommas, ih]
    · intro hmem
      exact h (List.mem_cons_of_mem _ hmem)
    · intro d₁ d₂ d₃ rest heq
      exact hne d₁ d₂ d₃ rest heq

theorem cleanNumber_eq (v : JSVal) :
    cleanNumber v = ⟨trimChars (removeSymbols (jsTrim v.toStr).data)⟩ := by
  unfold cleanNumber
  rw [dropGroupCommas_of_no_comma]
  simp [removeSymbols, List.mem_filter]

/-- C9: a column is classified `number` exactly when it has a non-empty
sampled value and, of its non-empty sampled values, those that parse as a
number once `$`, `,`, `(` and `)` are removed are at least nine tenths
(`9 * nonEmpty ≤ 10 * parsed`); so a column with 95% of them numeric is a
number column. The second replacement of the source changes nothing. -/
theorem detectColumn_number_iff (host : String → Option Int) (sample : List JSObj)
    (col : String) :
    ((detectColumn host sample col).type = "number" ↔
      0 < (nonEmptyValues sample col).length ∧
        9 * (nonEmptyValues sample col).length ≤ 10 * parsedCount sample col) ∧
    (0 < (nonEmptyValues sample col).length →
      95 * (nonEmptyValues sample col).length ≤ 100 * parsedCount sample col →
      (detectColumn host sample col).type = "number") ∧
    (∀ v, numberValue v = none ↔
      (JSNum.ofString ⟨trimChars (removeSymbols (jsTrim v.toStr).data)⟩).isNaN = true) := by
  have key : (detectColumn host sample col).type = "number" ↔
      0 < (nonEmptyValues sample col).length ∧
        9 * (nonEmptyValues sample col).length ≤ 10 * parsedCount sample col := by
    rw [detectColumn_type_eq]
    split_ifs with h
    · constructor
      · intro h'; exact absurd h' (by decide)
      · intro h'; omega
    · rw [columnType_eq_number_iff, isNumber, validNumbers_length, ratioAtLeastNineTenths]
      simp only [Bool.and_eq_true, decide_eq_true_eq, parsedCount]
  refine ⟨key, ?_, ?_⟩
  · intro hpos h95
    exact key.mpr ⟨hpos, by omega⟩
  · intro v
    rw [← cleanNumber_eq]
    unfold numberValue
    cases h : (JSNum.ofString (cleanNumber v)).isNaN <;> simp [h]

/-- C9 at `priceRows`: nineteen of twenty prices are numeric, written with
`$` and `,`, and the column is a number column. -/
theorem detectColumn_number_witness :
    (detectColumnsFromData hostNone (some priceRows)).map (fun c => (c.name, c.type)) =
      [("price", "number")] := by
  decide

/-! ## Column profiler: ISO calendar dates -/

theorem isDigit_not_space {c : Char} (h : isDigit c = true) : isJsSpace c = false := by
  simp only [isDigit, Bool.and_eq_true, decide_eq_true_eq] at h
  simp only [isJsSpace, Bool.or_eq_false_iff, Bool.and_eq_false_iff, beq_eq_false_iff_ne,
    decide_eq_false_iff_not]
  omega

theorem isDigit_ne {c k : Char} (h : isDigit c = true) (hk : isDigit k = false) : c ≠ k := by
  rintro rfl
  rw [h] at hk
  cases hk

theorem parseNonDecimal_digit (a b : Char) (rest : List Char) (hb : isDigit b = true) :
    JSNum.parseNonDecimal (a :: b :: rest) = none := by
  have h₁ := isDigit_ne hb (k := 'x') (by decide)
  have h₂ := isDigit_ne hb (k := 'X') (by decide)
  have h₃ := isDigit_ne hb (k := 'o') (by decide)
  have h₄ := isDigit_ne hb (k := 'O') (by decide)
  have h₅ := isDigit_ne hb (k := 'b') (by decide)
  have h₆ := isDigit_ne hb (k := 'B') (by decide)
  unfold JSNum.parseNonDecimal
  split
  · rename_i heq
    simp only [List.cons.injEq] at heq
    obtain ⟨-, rfl, -⟩ := heq
    simp [h₁, h₂, h₃, h₄, h₅, h₆]
  · rfl

theorem parseDecimal_digit (a : Char) (rest : List Char) (ha : isDigit a = true) :
    JSNum.parseDecimal (a :: rest) = JSNum.parseUnsigned (a :: rest) := by
  have h₁ := isDigit_ne ha (k := '+') (by decide)
  have h₂ := isDigit_ne ha (k := '-') (by decide)
  unfold JSNum.parseDecimal
  split
  · rename_i heq
    simp only [List.cons.injEq] at heq
    exact absurd heq.1 h₁
  · rename_i heq
    simp only [List.cons.injEq] at heq
    exact absurd heq.1 h₂
  · rfl

theorem iso_trimChars (y₁ y₂ y₃ y₄ m₁ m₂ d₁ d₂ : Char)
    (hy₁ : isDigit y₁ = true) (hd₂ : isDigit d₂ = true) :
    trimChars [y₁, y₂, y₃, y₄, '-', m₁, m₂, '-', d₁, d₂] =
      [y₁, y₂, y₃, y₄, '-', m₁, m₂, '-', d₁, d₂] := by
  simp [trimChars, List.dropWhile, isDigit_not_space hy₁, isDigit_not_space hd₂]

theorem iso_removeSymbols (y₁ y₂ y₃ y₄ m₁ m₂ d₁ d₂ : Char)
    (h : [y₁, y₂, y₃, y₄, m₁, m₂, d₁, d₂].all isDigit = true) :
    removeSymbols [y₁, y₂, y₃, y₄, '-', m₁, m₂, '-', d₁, d₂] =
      [y₁, y₂, y₃, y₄, '-', m₁, m₂, '-', d₁, d₂] := by
  unfold removeSymbols
  rw [List.filter_eq_self]
  intro c hc
  simp only [List.mem_cons, List.mem_singleton, List.not_mem_nil, or_false] at hc
  simp only [List.all_cons, List.all_nil, Bool.and_true, Bool.and_eq_true] at h
  obtain ⟨h₁, h₂, h₃, h₄, h₅, h₆, h₇, h₈⟩ := h
  have key : ∀ c : Char, isDigit c = true →
      (!(decide (c = '$') || decide (c = ',') || decide (c = '(') || decide (c = ')'))) = true := by
    intro c hc
    have a₁ := isDigit_ne hc (k := '$') (by decide)
    have a₂ := isDigit_ne hc (k := ',') (by decide)
    have a₃ := isDigit_ne hc (k := '(') (by decide)
    have a₄ := isDigit_ne hc (k := ')') (by decide)
    simp [a₁, a₂, a₃, a₄]
  rcases hc with rfl | rfl | rfl | rfl | rfl | rfl | rfl | rfl | rfl | rfl
  all_goals first | exact key _ ‹_› | decide

theorem iso_ofString (y₁ y₂ y₃ y₄ m₁ m₂ d₁ d₂ : Char)
    (h : [y₁, y₂, y₃, y₄, m₁, m₂, d₁, d₂].all isDigit = true) :
    JSNum.ofString ⟨[y₁, y₂, y₃, y₄, '-', m₁, m₂, '-', d₁, d₂]⟩ = .nan := by
  simp only [List.all_cons, List.all_nil, Bool.and_true, Bool.and_eq_true] at h
  obtain ⟨h₁, h₂, h₃, h₄, h₅, h₆, h₇, h₈⟩ := h
  have hI := isDigit_ne h₁ (k := 'I') (by decide)
  have hdash : isDigit '-' = false := by decide
  have hinf : "Infinity".data = ['I', 'n', 'f', 'i', 'n', 'i', 't', 'y'] := rfl
  unfold JSNum.ofString
  simp only [iso_trimChars y₁ y₂ y₃ y₄ m₁ m₂ d₁ d₂ h₁ h₈, parseNonDecimal_digit _ _ _ h₂,
    parseDecimal_digit _ _ h₁]
  simp [JSNum.parseUnsigned, hinf, hI, List.takeWhile, List.dropWhile, h₁, h₂, h₃, h₄, hdash,
    JSNum.parseExponent]

theorem iso_datePatterns (y₁ y₂ y₃ y₄ m₁ m₂ d₁ d₂ : Char)
    (h : [y₁, y₂, y₃, y₄, m₁, m₂, d₁, d₂].all isDigit = true) :
    datePatterns ⟨[y₁, y₂, y₃, y₄, '-', m₁, m₂, '-', d₁, d₂]⟩ = true := by
  simp only [List.all_cons, List.all_nil, Bool.and_true, Bool.and_eq_true] at h
  obtain ⟨h₁, h₂, h₃, h₄, h₅, h₆, h₇, h₈⟩ := h
  have hs : isDateSep '-' = true := by decide
  have hymd : Rx.toEnd rxYearMonthDay [y₁, y₂, y₃, y₄, '-', m₁, m₂, '-', d₁, d₂] = true := by
    simp [Rx.toEnd, rxYearMonthDay, rxDigits4, rxDigits12, Rx.seq, Rx.cls, Rx.opt, h₁, h₂, h₃,
      h₄, h₅, h₆, h₇, h₈, hs]
  simp [datePatterns, hymd]

theorem isIsoDateValue_cases {v : JSVal} (h : isIsoDateValue v = true) :
    ∃ y₁ y₂ y₃ y₄ m₁ m₂ d₁ d₂ : Char, [y₁, y₂, y₃, y₄, m₁, m₂, d₁, d₂].all isDigit = true ∧
      v = .str ⟨[y₁, y₂, y₃, y₄, '-', m₁, m₂, '-', d₁, d₂]⟩ := by
  cases v with
  | str s =>
    obtain ⟨cs⟩ := s
    simp only [isIsoDateValue, isIsoDateText] at h
    split at h
    · rename_i y₁ y₂ y₃ y₄ m₁ m₂ d₁ d₂
      exact ⟨y₁, y₂, y₃, y₄, m₁, m₂, d₁, d₂, h, rfl⟩
    · cases h
  | _ => cases h

theorem cleanNumber_iso (y₁ y₂ y₃ y₄ m₁ m₂ d₁ d₂ : Char)
    (h : [y₁, y₂, y₃, y₄, m₁, m₂, d₁, d₂].all isDigit = true) :
    cleanNumber (.str ⟨[y₁, y₂, y₃, y₄, '-', m₁, m₂, '-', d₁, d₂]⟩) =
      ⟨[y₁, y₂, y₃, y₄, '-', m₁, m₂, '-', d₁, d₂]⟩ := by
  have hd' := h
  simp only [List.all_cons, List.all_nil, Bool.and_true, Bool.and_eq_true] at hd'
  have htrim := iso_trimChars y₁ y₂ y₃ y₄ m₁ m₂ d₁ d₂ hd'.1 hd'.2.2.2.2.2.2.2
  have e : (JSVal.str ⟨[y₁, y₂, y₃, y₄, '-', m₁, m₂, '-', d₁, d₂]⟩).toStr.data =
      [y₁, y₂, y₃, y₄, '-', m₁, m₂, '-', d₁, d₂] := rfl
  rw [cleanNumber_eq, jsTrim, e, htrim, iso_removeSymbols _ _ _ _ _ _ _ _ h, htrim]

theorem numberValue_iso {v : JSVal} (h : isIsoDateValue v = true) : numberValue v = none := by
  obtain ⟨y₁, y₂, y₃, y₄, m₁, m₂, d₁, d₂, hd, rfl⟩ := isIsoDateValue_cases h
  unfold numberValue
  rw [cleanNumber_iso _ _ _ _ _ _ _ _ hd, iso_ofString _ _ _ _ _ _ _ _ hd]
  rfl

theorem isValidDate_iso (host : String → Option Int) {v : JSVal}
    (h : isIsoDateValue v = true) : isValidDate host v = true := by
  obtain ⟨y₁, y₂, y₃, y₄, m₁, m₂, d₁, d₂, hd, rfl⟩ := isIsoDateValue_cases h
  have hd' := hd
  simp only [List.all_cons, List.all_nil, Bool.and_true, Bool.and_eq_true] at hd'
  have htrim := iso_trimChars y₁ y₂ y₃ y₄ m₁ m₂ d₁ d₂ hd'.1 hd'.2.2.2.2.2.2.2
  have e : jsTrim (JSVal.str ⟨[y₁, y₂, y₃, y₄, '-', m₁, m₂, '-', d₁, d₂]⟩).toStr =
      ⟨[y₁, y₂, y₃, y₄, '-', m₁, m₂, '-', d₁, d₂]⟩ := by
    show String.mk (trimChars [y₁, y₂, y₃, y₄, '-', m₁, m₂, '-', d₁, d₂]) = _
    rw [htrim]
  unfold isValidDate
  simp only [e, iso_datePatterns _ _ _ _ _ _ _ _ hd, if_true]

/-- C10: a column with a non-empty sampled value, all of whose non-empty
sampled values are ISO calendar dates `YYYY-MM-DD`, is classified `date`:
none of the values parses as a number, so the numeric test fails, and every
value passes the date test. -/
theorem detectColumn_iso_date (host : String → Option Int) (sample : List JSObj) (col : String)
    (hne : nonEmptyValues sample col ≠ [])
    (hiso : ∀ v ∈ nonEmptyValues sample col, isIsoDateValue v = true) :
    (detectColumn host sample col).type = "date" ∧
      parsedCount sample col = 0 ∧
      ∀ v ∈ nonEmptyValues sample col, isValidDate host v = true := by
  have hlen : (nonEmptyValues sample col).length ≠ 0 := fun h => hne (List.length_eq_zero.mp h)
  have hparsed : parsedCount sample col = 0 := by
    unfold parsedCount
    rw [List.countP_eq_zero]
    intro v hv
    simp [numberValue_iso (hiso v hv)]
  have hdates : ∀ v ∈ nonEmptyValues sample col, isValidDate host v = true :=
    fun v hv => isValidDate_iso host (hiso v hv)
  have hnum : isNumber (nonEmptyValues sample col) = false := by
    have hp : (validNumbers (nonEmptyValues sample col)).length = 0 := by
      rw [validNumbers_length]; exact hparsed
    simp only [isNumber, hp, ratioAtLeastNineTenths, Bool.and_eq_false_iff,
      decide_eq_false_iff_not]
    right
    omega
  have hdate : isDate host (nonEmptyValues sample col) = true := by
    have hf : validDates host (nonEmptyValues sample col) = nonEmptyValues sample col :=
      List.filter_eq_self.mpr hdates
    simp only [isDate, hnum, hf, Bool.not_false, if_true, beq_self_eq_true, Bool.true_and,
      decide_eq_true_eq]
    omega
  refine ⟨?_, hparsed, hdates⟩
  rw [detectColumn_type_eq, if_neg hlen]
  simp [columnType, hnum, hdate]

/-- C10 at the column `when` of `dateRows`, two ISO dates among four cells. -/
theorem detectColumn_iso_date_witness :
    (detectColumn hostNone dateRows "when").type = "date" ∧
      parsedCount dateRows "when" = 0 ∧
      ∀ v ∈ nonEmptyValues dateRows "when", isValidDate hostNone v = true :=
  detectColumn_iso_date hostNone dateRows "when" (by decide) (by decide)

/-! ## Objects used as dictionaries: own keys and their order -/

theorem set_map_fst (o : JSObj) (k : String) (v : JSVal) :
    (o.set k v).map Prod.fst = addKey (o.map Prod.fst) k := by
  unfold JSObj.set addKey
  by_cases hmem : k ∈ o.map Prod.fst
  · have hany : o.any (fun p => p.1 == k) = true := by
      rw [List.any_eq_true]
      obtain ⟨p, hp, rfl⟩ := List.mem_map.mp hmem
      exact ⟨p, hp, by simp⟩
    rw [if_pos hany, if_pos (Or.inl hmem), List.map_map]
    apply List.map_congr_left
    intro p _
    by_cases hp : p.1 = k <;> simp [hp]
  · have hany : ¬ o.any (fun p => p.1 == k) = true := by
      rw [List.any_eq_true]
      rintro ⟨p, hp, hpk⟩
      exact hmem (List.mem_map.mpr ⟨p, hp, by simpa using hpk⟩)
    rw [if_neg hany]
    by_cases hproto : k = "__proto__"
    · rw [if_pos hproto, if_pos (Or.inr hproto)]
    · rw [if_neg hproto, if_neg (by tauto)]
      simp

theorem foldl_set_map_fst {ρ : Type} (key : ρ → String) (val : JSObj → ρ → JSVal)
    (rows : List ρ) (o : JSObj) :
    (rows.foldl (fun acc r => acc.set (key r) (val acc r)) o).map Prod.fst =
      (rows.map key).foldl addKey (o.map Prod.fst) := by
  induction rows generalizing o with
  | nil => rfl
  | cons r rows ih => rw [List.foldl_cons, ih, set_map_fst, List.map_cons, List.foldl_cons]

theorem foldl_addKey (ls ks : List String) :
    ls.foldl addKey ks =
      ks ++ (jsSet ls).filter (fun k => decide (k ∉ ks) && k != "__proto__") := by
  induction ls generalizing ks with
  | nil => simp [jsSet]
  | cons l ls ih =>
    rw [List.foldl_cons, ih, jsSet, List.filter_cons, List.filter_filter]
    unfold addKey
    by_cases h : l ∈ ks ∨ l = "__proto__"
    · rw [if_pos h]
      have hl : (decide (l ∉ ks) && l != "__proto__") = false := by
        rcases h with h | h <;> simp [h]
      rw [hl]
      simp only [Bool.false_eq_true, if_false]
      congr 1
      apply List.filter_congr
      intro x _
      by_cases hx : x = l
      · subst hx
        rcases h with h | h <;> simp [h]
      · simp [hx]
    · rw [if_neg h]
      push_neg at h
      have hl : (decide (l ∉ ks) && l != "__proto__") = true := by simp [h.1, h.2]
      rw [hl]
      simp only [if_true, List.append_assoc, List.singleton_append]
      congr 2
      apply List.filter_congr
      intro x _
      by_cases hx : x = l
      · subst hx; simp
      · simp [hx]

theorem groupSum_map_fst (rows : List JSObj) (xcol ycol : JSVal) :
    (groupSum rows xcol ycol).map Prod.fst =
      (jsSet (rowLabels rows xcol)).filter (fun k => k != "__proto__") := by
  unfold groupSum
  rw [foldl_set_map_fst (fun r => (r.getV xcol).toStr)
    (fun grouped r => JSVal.plus (JSVal.or (grouped.get (r.getV xcol).toStr) (.num .zero))
      (numberOrZero r ycol))]
  rw [foldl_addKey]
  simp [rowLabels]

theorem keys_eq (o : JSObj) :
    o.keys = ((o.map Prod.fst).filter isArrayIndex).insertionSort indexLe ++
      (o.map Prod.fst).filter (fun k => !isArrayIndex k) := by
  unfold JSObj.keys JSObj.entries
  rw [List.map_append, List.map_insertionSort
    (r := fun (p q : String × JSVal) => indexOfKey p.1 ≤ indexOfKey q.1)
    (s := indexLe) Prod.fst _ (fun a _ b _ => Iff.rfl)]
  simp only [List.filter_map]
  rfl

theorem indexOf_filter_lt {α : Type} [DecidableEq α] (p : α → Bool) (a b : α)
    (ha : p a = true) (hb : p b = true) (l : List α) :
    (l.filter p).indexOf a < (l.filter p).indexOf b ↔ l.indexOf a < l.indexOf b := by
  induction l with
  | nil => simp
  | cons x xs ih =>
    by_cases hxa : x = a
    · subst hxa
      rw [List.filter_cons_of_pos ha, List.indexOf_cons_self, List.indexOf_cons_self]
      by_cases hxb : x = b
      · subst hxb; simp
      · rw [List.indexOf_cons_ne _ hxb, List.indexOf_cons_ne _ hxb]; simp
    · by_cases hxb : x = b
      · subst hxb
        rw [List.filter_cons_of_pos hb, List.indexOf_cons_self, List.indexOf_cons_self]
        simp
      · rw [List.indexOf_cons_ne _ hxa, List.indexOf_cons_ne _ hxb]
        by_cases hpx : p x = true
        · rw [List.filter_cons_of_pos hpx, List.indexOf_cons_ne _ hxa,
            List.indexOf_cons_ne _ hxb]
          simpa using ih
        · rw [List.filter_cons_of_neg hpx]
          simpa using ih

theorem indexOf_jsSet_lt (a b : String) (l : List String) :
    (jsSet l).indexOf a < (jsSet l).indexOf b ↔ l.indexOf a < l.indexOf b := by
  induction l with
  | nil => simp [jsSet]
  | cons x xs ih =>
    rw [jsSet]
    by_cases hxa : x = a
    · subst hxa
      rw [List.indexOf_cons_self, List.indexOf_cons_self]
      by_cases hxb : x = b
      · subst hxb; simp
      · rw [List.indexOf_cons_ne _ hxb, List.indexOf_cons_ne _ hxb]; simp
    · by_cases hxb : x = b
      · subst hxb
        rw [List.indexOf_cons_self, List.indexOf_cons_self]
        simp
      · rw [List.indexOf_cons_ne _ hxa, List.indexOf_cons_ne _ hxb, List.indexOf_cons_ne _ hxa,
          List.indexOf_cons_ne _ hxb]
        have ha : (fun y : String => y != x) a = true := by simpa using Ne.symm hxa
        have hb : (fun y : String => y != x) b = true := by simpa using Ne.symm hxb
        have := indexOf_filter_lt (fun y : String => y != x) a b ha hb (jsSet xs)
        simp only [Nat.succ_lt_succ_iff]
        rw [this, ih]

/-- Keys in enumeration order: the array indices sorted, then the other keys
as they stand in `ks`. -/
theorem enumeration_order (ks : List String) (lab : List String)
    (hlab : lab = (ks.filter isArrayIndex).insertionSort indexLe ++
      ks.filter (fun k => !isArrayIndex k)) :
    (lab.filter isArrayIndex).Sorted indexLe ∧
    (∀ a ∈ lab, ∀ b ∈ lab, isArrayIndex a = true → isArrayIndex b = false →
      lab.indexOf a < lab.indexOf b) ∧
    (∀ a b, isArrayIndex a = false → isArrayIndex b = false →
      (lab.indexOf a < lab.indexOf b ↔ ks.indexOf a < ks.indexOf b)) := by
  have hS : ∀ k ∈ (ks.filter isArrayIndex).insertionSort indexLe, isArrayIndex k = true := by
    intro k hk
    rw [List.mem_insertionSort] at hk
    exact (List.mem_filter.mp hk).2
  have hN : ∀ k ∈ ks.filter (fun k => !isArrayIndex k), isArrayIndex k = false := by
    intro k hk
    simpa using (List.mem_filter.mp hk).2
  have hnot : ∀ k, isArrayIndex k = false →
      k ∉ (ks.filter isArrayIndex).insertionSort indexLe := by
    intro k hk hmem
    rw [hS k hmem] at hk
    cases hk
  subst hlab
  refine ⟨?_, ?_, ?_⟩
  · have e₁ : ((ks.filter isArrayIndex).insertionSort indexLe).filter isArrayIndex =
        (ks.filter isArrayIndex).insertionSort indexLe := List.filter_eq_self.mpr hS
    have e₂ : (ks.filter (fun k => !isArrayIndex k)).filter isArrayIndex = [] :=
      List.filter_eq_nil_iff.mpr (fun k hk => by simp [hN k hk])
    rw [List.filter_append, e₁, e₂, List.append_nil]
    exact List.sorted_insertionSort indexLe _
  · intro a ha b _ hia hib
    have haS : a ∈ (ks.filter isArrayIndex).insertionSort indexLe := by
      rcases List.mem_append.mp ha with h | h
      · exact h
      · rw [hN a h] at hia; cases hia
    rw [List.indexOf_append_of_mem haS, List.indexOf_append_of_not_mem (hnot b hib)]
    have := List.indexOf_lt_length.mpr haS
    omega
  · intro a b hia hib
    rw [List.indexOf_append_of_not_mem (hnot a hia), List.indexOf_append_of_not_mem (hnot b hib)]
    have := indexOf_filter_lt (fun k => !isArrayIndex k) a b (by simp [hia]) (by simp [hib]) ks
    omega

/-! ## Series builder: grouping and summing -/

theorem buildChartData_group_labels (host : String → Option Int) (rows : List JSObj)
    (xcol ycol : JSVal) (chartType : String) (colsMeta : List ColMeta) (hr : rows ≠ [])
    (hx : xcol.truthy = true) (hy : ycol.truthy = true)
    (ht : chartType = "bar" ∨ chartType = "pie")
    (hcn : isCategoryNumber (findByName colsMeta xcol) (findByName colsMeta ycol) = true) :
    ∃ payload, buildChartData host (some rows) xcol ycol chartType colsMeta = some payload ∧
      payload.labels = some (groupSum rows xcol ycol).keys ∧
      payload.data = .values (groupSum rows xcol ycol).values := by
  have hlen : rows.length ≠ 0 := fun h => hr (List.length_eq_zero.mp h)
  rcases ht with rfl | rfl
  · refine ⟨{ labels := some (groupSum rows xcol ycol).keys, label := ycol,
              data := .values (groupSum rows xcol ycol).values }, ?_, rfl, rfl⟩
    have h₁ : ("bar" = "pie") = False := by decide
    have h₂ : ("bar" = "scatter") = False := by decide
    have h₃ : ("bar" = "line") = False := by decide
    simp [buildChartData, hlen, hx, hy, hcn, h₁, h₂, h₃]
  · refine ⟨{ labels := some (groupSum rows xcol ycol).keys, label := .undefined,
              data := .values (groupSum rows xcol ycol).values }, ?_, rfl, rfl⟩
    simp [buildChartData, hlen, hx, hy, hcn]

/-- C3, evaluated: on the rows of the specification's example the bar chart
has labels `A`, `B` and sums `4`, `2`; on `memberRows` the label `constructor`
gets a text instead of the sum `4`, and the label `__proto__` is missing. -/
theorem buildChartData_bar_inherited_keys :
    buildChartData hostNone (some letterRows) (.str "c") (.str "n") "bar" letterProfiles =
      some { labels := some ["A", "B"], label := .str "n",
             data := .values [.num (.fin 4 0), .num (.fin 2 0)] } ∧
    rowLabels memberRows (.str "kind") =
      ["constructor", "method", "constructor", "method", "__proto__", "__proto__"] ∧
    buildChartData hostNone (some memberRows) (.str "kind") (.str "n") "bar"
        (detectColumnsFromData hostNone (some memberRows)) =
      some { labels := some ["constructor", "method"], label := .str "n",
             data := .values [.str "function Object() { [native code] }13",
                              .num (.fin 6 0)] } := by
  decide

/-- C4, as stated, fails: in `sizeRows` the label `XL` is seen first, then
`10`, then `2`, and the bar chart lists `2`, `10`, `XL`. -/
theorem labels_first_seen_counterexample :
    rowLabels sizeRows (.str "size") = ["XL", "10", "2", "XL", "10", "2"] ∧
      (buildChartData hostNone (some sizeRows) (.str "size") (.str "qty") "bar"
        (detectColumnsFromData hostNone (some sizeRows))).map (fun p => p.labels) =
      some (some ["2", "10", "XL"]) := by
  decide

/-- C4, amended: in the group-and-sum branch (bar or pie, x categorical, y
number) the labels follow the key order of the accumulating object: the labels
that are array indices come first, in ascending numeric order, and for two
labels that are not array indices, one precedes the other exactly when its
first row comes before the first row of the other. -/
theorem buildChartData_group_label_order (host : String → Option Int) (rows : List JSObj)
    (xcol ycol : JSVal) (chartType : String) (colsMeta : List ColMeta) (hr : rows ≠ [])
    (hx : xcol.truthy = true) (hy : ycol.truthy = true)
    (ht : chartType = "bar" ∨ chartType = "pie")
    (hcn : isCategoryNumber (findByName colsMeta xcol) (findByName colsMeta ycol) = true) :
    ∃ payload labels,
      buildChartData host (some rows) xcol ycol chartType colsMeta = some payload ∧
      payload.labels = some labels ∧
      (labels.filter isArrayIndex).Sorted indexLe ∧
      (∀ a ∈ labels, ∀ b ∈ labels, isArrayIndex a = true → isArrayIndex b = false →
        labels.indexOf a < labels.indexOf b) ∧
      (∀ a ∈ labels, ∀ b ∈ labels, isArrayIndex a = false → isArrayIndex b = false →
        (labels.indexOf a < labels.indexOf b ↔
          (rowLabels rows xcol).indexOf a < (rowLabels rows xcol).indexOf b)) := by
  obtain ⟨payload, hp, hlab, -⟩ :=
    buildChartData_group_labels host rows xcol ycol chartType colsMeta hr hx hy ht hcn
  have hkeys := keys_eq (groupSum rows xcol ycol)
  rw [groupSum_map_fst] at hkeys
  obtain ⟨h₁, h₂, h₃⟩ := enumeration_order _ _ hkeys
  refine ⟨payload, _, hp, hlab, h₁, h₂, ?_⟩
  intro a ha b hb hia hib
  have hproto : ∀ k ∈ (groupSum rows xcol ycol).keys, isArrayIndex k = false →
      (fun k : String => k != "__proto__") k = true := by
    intro k hk hik
    rw [hkeys] at hk
    rcases List.mem_append.mp hk with h | h
    · rw [List.mem_insertionSort] at h
      rw [(List.mem_filter.mp h).2] at hik
      cases hik
    · exact (List.mem_filter.mp (List.mem_filter.mp h).1).2
  rw [h₃ a b hia hib, indexOf_filter_lt _ a b (hproto a ha hia) (hproto b hb hib),
    indexOf_jsSet_lt]

/-- C4 amended, at `sizeRows` with the profiles the engine computes. -/
theorem buildChartData_group_label_order_witness :
    ∃ payload labels,
      buildChartData hostNone (some sizeRows) (.str "size") (.str "qty") "bar"
        (detectColumnsFromData hostNone (some sizeRows)) = some payload ∧
      payload.labels = some labels ∧
      (labels.filter isArrayIndex).Sorted indexLe ∧
      (∀ a ∈ labels, ∀ b ∈ labels, isArrayIndex a = true → isArrayIndex b = false →
        labels.indexOf a < labels.indexOf b) ∧
      (∀ a ∈ labels, ∀ b ∈ labels, isArrayIndex a = false → isArrayIndex b = false →
        (labels.indexOf a < labels.indexOf b ↔
          (rowLabels sizeRows (.str "size")).indexOf a <
            (rowLabels sizeRows (.str "size")).indexOf b)) :=
  buildChartData_group_label_order hostNone sizeRows (.str "size") (.str "qty") "bar"
    (detectColumnsFromData hostNone (some sizeRows)) (by decide) (by decide) (by decide)
    (Or.inl rfl) (by decide)

/-! ## Column profiler: the three predicates and their precedence -/

theorem isValidDate_iff (host : String → Option Int) (v : JSVal) :
    isValidDate host v = true ↔ PassesDateTest host v := by
  unfold isValidDate PassesDateTest
  by_cases hp : datePatterns (jsTrim v.toStr) = true
  · simp [hp]
  · cases hd : dateParse host (jsTrim v.toStr) with
    | none => simp [hp, hd]
    | some time =>
      simp only [hp, hd, if_false, Bool.and_eq_true, decide_eq_true_eq, false_or,
        Option.some.injEq, Bool.false_eq_true]
      constructor
      · intro h; exact ⟨time, rfl, h.2, h.1⟩
      · rintro ⟨t, rfl, h₁, h₂⟩; exact ⟨h₂, h₁⟩

theorem mem_jsSet (x : String) (l : List String) : x ∈ jsSet l ↔ x ∈ l := by
  induction l with
  | nil => simp [jsSet]
  | cons a l ih =>
    rw [jsSet, List.mem_cons, List.mem_filter, ih, List.mem_cons]
    by_cases h : x = a <;> simp [h]

theorem nodup_jsSet (l : List String) : (jsSet l).Nodup := by
  induction l with
  | nil => simp [jsSet]
  | cons a l ih =>
    rw [jsSet, List.nodup_cons]
    refine ⟨?_, ih.filter _⟩
    simp [List.mem_filter]

theorem jsSet_length (l : List String) : (jsSet l).length = l.dedup.length := by
  apply List.Perm.length_eq
  rw [List.perm_ext_iff_of_nodup (nodup_jsSet l) (List.nodup_dedup l)]
  intro a
  rw [mem_jsSet, List.mem_dedup]

theorem uniqueValues_length (sample : List JSObj) (col : String) :
    (uniqueValues (nonEmptyValues sample col)).length = distinctCount sample col := by
  unfold uniqueValues distinctCount
  exact jsSet_length _

theorem isNumber_iff (sample : List JSObj) (col : String) :
    isNumber (nonEmptyValues sample col) = true ↔ NumericThreshold sample col := by
  simp only [isNumber, validNumbers_length, ratioAtLeastNineTenths, Bool.and_eq_true,
    decide_eq_true_eq, NumericThreshold, parsedCount, gt_iff_lt]

theorem isDate_iff (host : String → Option Int) (sample : List JSObj) (col : String) :
    isDate host (nonEmptyValues sample col) = true ↔
      ¬ NumericThreshold sample col ∧ DateUnanimous host sample col := by
  rw [← isNumber_iff]
  unfold isDate DateUnanimous validDates
  cases hn : isNumber (nonEmptyValues sample col)
  · simp only [Bool.not_false, if_true, Bool.and_eq_true, beq_iff_eq, decide_eq_true_eq,
      Bool.false_eq_true, not_false_eq_true, true_and, gt_iff_lt]
    rw [List.filter_length_eq_length]
    constructor
    · rintro ⟨h₁, h₂⟩
      exact ⟨h₂, fun v hv => (isValidDate_iff host v).mp (h₁ v hv)⟩
    · rintro ⟨h₁, h₂⟩
      exact ⟨fun v hv => (isValidDate_iff host v).mpr (h₂ v hv), h₁⟩
  · simp

theorem isCategorical_iff (host : String → Option Int) (sample : List JSObj) (col : String)
    (hpos : 0 < (nonEmptyValues sample col).length) :
    isCategorical host sample.length (nonEmptyValues sample col) = true ↔
      ¬ NumericThreshold sample col ∧ ¬ DateUnanimous host sample col ∧
        CardinalityBound sample col := by
  have hd := isDate_iff host sample col
  have hn := isNumber_iff sample col
  unfold isCategorical CardinalityBound
  rw [uniqueValues_length]
  simp only [percentAtMostFifty, Bool.and_eq_true, decide_eq_true_eq, Bool.not_eq_true',
    ← Bool.not_eq_true, hn, hd]
  constructor
  · rintro ⟨⟨⟨h₁, h₂⟩, h₃⟩, h₄⟩
    exact ⟨h₃, fun h => h₄ ⟨h₃, h⟩, hpos, h₁, h₂⟩
  · rintro ⟨h₁, h₂, -, h₃, h₄⟩
    exact ⟨⟨⟨h₃, h₄⟩, h₁⟩, fun h => h₂ h.2⟩

theorem typeChain_iff (a b c : Bool) :
    let t := if a = true then "number" else if b = true then "date"
      else if c = true then "categorical" else "text"
    (t = "number" ↔ a = true) ∧ (t = "date" ↔ a = false ∧ b = true) ∧
    (t = "categorical" ↔ a = false ∧ b = false ∧ c = true) ∧
    (t = "text" ↔ a = false ∧ b = false ∧ c = false) := by
  cases a <;> cases b <;> cases c <;> decide

theorem detectColumn_type_iff (host : String → Option Int) (sample : List JSObj) (col : String) :
    ((detectColumn host sample col).type = "number" ↔ NumericThreshold sample col) ∧
    ((detectColumn host sample col).type = "date" ↔
      ¬ NumericThreshold sample col ∧ DateUnanimous host sample col) ∧
    ((detectColumn host sample col).type = "categorical" ↔
      ¬ NumericThreshold sample col ∧ ¬ DateUnanimous host sample col ∧
        CardinalityBound sample col) ∧
    ((detectColumn host sample col).type = "text" ↔
      (nonEmptyValues sample col).length = 0 ∨
        (¬ NumericThreshold sample col ∧ ¬ DateUnanimous host sample col ∧
          ¬ CardinalityBound sample col)) := by
  rw [detectColumn_type_eq]
  by_cases h : (nonEmptyValues sample col).length = 0
  · have h₁ : ¬ NumericThreshold sample col := fun hn => by
      have := hn.1; omega
    have h₂ : ¬ DateUnanimous host sample col := fun hn => by
      have := hn.1; omega
    have h₃ : ¬ CardinalityBound sample col := fun hn => by
      have := hn.1; omega
    rw [if_pos h]
    refine ⟨⟨fun hh => absurd hh (by decide), fun hh => absurd hh h₁⟩,
      ⟨fun hh => absurd hh (by decide), fun hh => absurd hh.2 h₂⟩,
      ⟨fun hh => absurd hh (by decide), fun hh => absurd hh.2.2 h₃⟩,
      ⟨fun _ => Or.inl h, fun _ => rfl⟩⟩
  · have hpos : 0 < (nonEmptyValues sample col).length := Nat.pos_of_ne_zero h
    rw [if_neg h]
    have hn := isNumber_iff sample col
    have hd := isDate_iff host sample col
    have hc := isCategorical_iff host sample col hpos
    obtain ⟨c₁, c₂, c₃, c₄⟩ := typeChain_iff (isNumber (nonEmptyValues sample col))
      (isDate host (nonEmptyValues sample col))
      (isCategorical host sample.length (nonEmptyValues sample col))
    unfold columnType
    refine ⟨c₁.trans hn, ?_, ?_, ?_⟩
    · rw [c₂, hd, ← hn]
      constructor
      · rintro ⟨h₁, h₂⟩; exact h₂
      · rintro ⟨h₁, h₂⟩; exact ⟨by simpa using h₁, h₁, h₂⟩
    · rw [c₃, hc, ← Bool.not_eq_true, ← Bool.not_eq_true, hd, hn]
      constructor
      · rintro ⟨h₁, h₂, h₃⟩; exact h₃
      · rintro ⟨h₁, h₂, h₃⟩; exact ⟨h₁, fun hh => h₂ hh.2, h₁, h₂, h₃⟩
    · rw [c₄, ← Bool.not_eq_true, ← Bool.not_eq_true, ← Bool.not_eq_true, hc, hd, hn]
      constructor
      · rintro ⟨h₁, h₂, h₃⟩
        exact Or.inr ⟨h₁, fun hh => h₂ ⟨h₁, hh⟩, fun hh => h₃ ⟨h₁, fun hd' => h₂ ⟨h₁, hd'⟩, hh⟩⟩
      · rintro (h₀ | ⟨h₁, h₂, h₃⟩)
        · exact absurd h₀ h
        · exact ⟨h₁, fun hh => h₂ hh.2, fun hh => h₃ hh.2.2⟩

/-- C11: a column is classified `date` only if every non-empty sampled value
passes the date test (it matches the date pattern, or parses to a positive
time while not being a number); one non-empty sampled value that fails the
test keeps the column from being `date`, whatever the other values are. -/
theorem detectColumn_date_only_if_all (host : String → Option Int) (sample : List JSObj)
    (col : String) :
    ((detectColumn host sample col).type = "date" →
      ∀ v ∈ nonEmptyValues sample col, PassesDateTest host v) ∧
    (∀ v ∈ nonEmptyValues sample col, ¬ PassesDateTest host v →
      (detectColumn host sample col).type ≠ "date") := by
  have key := (detectColumn_type_iff host sample col).2.1
  refine ⟨fun h => (key.mp h).2.2, ?_⟩
  intro v hv hfail hdate
  exact hfail ((key.mp hdate).2.2 v hv)

/-- C11 at `mixedDateRows`: nine dates and the word `soon` are not a date column. -/
theorem detectColumn_date_only_if_all_witness :
    (detectColumn hostNone mixedDateRows "when").type ≠ "date" :=
  (detectColumn_date_only_if_all hostNone mixedDateRows "when").2 (.str "soon") (by decide)
    (fun h => absurd ((isValidDate_iff hostNone (.str "soon")).mpr h) (by decide))

/-- C12: a column is classified `categorical` exactly when it is neither
`number` nor `date` and, with `u` distinct stringified values among the `n`
non-empty sampled values and `s` sampled rows, `u / n * 100 ≤ 50` (a quotient
that exists only for `n > 0`) and `u ≤ min(20, max(5, floor(s / 2)))`. -/
theorem detectColumn_categorical_iff (host : String → Option Int) (sample : List JSObj)
    (col : String) :
    (detectColumn host sample col).type = "categorical" ↔
      (detectColumn host sample col).type ≠ "number" ∧
      (detectColumn host sample col).type ≠ "date" ∧
      0 < (nonEmptyValues sample col).length ∧
      100 * distinctCount sample col ≤ 50 * (nonEmptyValues sample col).length ∧
      distinctCount sample col ≤ min 20 (max 5 (sample.length / 2)) := by
  obtain ⟨hn, hd, hc, -⟩ := detectColumn_type_iff host sample col
  constructor
  · intro h
    refine ⟨?_, ?_, (hc.mp h).2.2⟩
    · rw [h]; decide
    · rw [h]; decide
  · rintro ⟨h₁, h₂, h₃⟩
    have hnum : ¬ NumericThreshold sample col := fun hh => h₁ (hn.mpr hh)
    exact hc.mpr ⟨hnum, fun hh => h₂ (hd.mpr ⟨hnum, hh⟩), h₃⟩

/-- C12 at the column `size` of `sizeRows`: three distinct values among six. -/
theorem detectColumn_categorical_witness :
    (detectColumn hostNone sizeRows "size").type = "categorical" ∧
      distinctCount sizeRows "size" = 3 ∧ (nonEmptyValues sizeRows "size").length = 6 := by
  decide

/-- C14: the type is the first of number, date, categorical whose predicate
holds and text otherwise: the numeric threshold gives `number` whatever the
date and cardinality tests say, a non-numeric column that passes the date test
is `date` whatever its cardinality, and the type is `text` exactly when
`validCount` is 0 or none of the three predicates holds. -/
theorem detectColumn_type_precedence (host : String → Option Int) (sample : List JSObj)
    (col : String) :
    (NumericThreshold sample col → (detectColumn host sample col).type = "number") ∧
    (¬ NumericThreshold sample col → DateUnanimous host sample col →
      (detectColumn host sample col).type = "date") ∧
    (¬ NumericThreshold sample col → ¬ DateUnanimous host sample col →
      CardinalityBound sample col → (detectColumn host sample col).type = "categorical") ∧
    ((detectColumn host sample col).type = "text" ↔
      (detectColumn host sample col).stats.validCount = 0 ∨
        (¬ NumericThreshold sample col ∧ ¬ DateUnanimous host sample col ∧
          ¬ CardinalityBound sample col)) := by
  obtain ⟨hn, hd, hc, ht⟩ := detectColumn_type_iff host sample col
  refine ⟨hn.mpr, fun h₁ h₂ => hd.mpr ⟨h₁, h₂⟩, fun h₁ h₂ h₃ => hc.mpr ⟨h₁, h₂, h₃⟩, ?_⟩
  rw [detectColumn_validCount_eq]
  exact ht

/-- C14 at `priceRows`, whose prices meet the numeric threshold and, being one
value repeated, also the cardinality bound: the type is `number`. -/
theorem detectColumn_type_precedence_witness :
    NumericThreshold priceRows "price" ∧ CardinalityBound priceRows "price" ∧
      (detectColumn hostNone priceRows "price").type = "number" := by
  decide

/-! ## Column profiler: the sample and the column set -/

theorem take_min_length {α : Type} (k : Nat) (l : List α) :
    l.take (min k l.length) = l.take k := by
  rcases Nat.le_total k l.length with h | h
  · rw [Nat.min_eq_left h]
  · rw [Nat.min_eq_right h, List.take_of_length_le h, List.take_of_length_le (Nat.le_refl _)]

theorem detectColumnsFromData_eq (host : String → Option Int) (rows : List JSObj) :
    detectColumnsFromData host (some rows) =
      ((rows.take 50).head?.getD []).keys.map (detectColumn host (rows.take 50)) := by
  unfold detectColumnsFromData
  by_cases h : rows.length = 0
  · rw [List.length_eq_zero.mp h]
    rfl
  · simp only [h, if_false, take_min_length]

theorem mem_detectColumnsFromData (host : String → Option Int) (rows : List JSObj)
    (c : ColMeta) (hc : c ∈ detectColumnsFromData host (some rows)) :
    c = detectColumn host (rows.take 50) c.name ∧ c.name ∈ ((rows.take 50).head?.getD []).keys := by
  rw [detectColumnsFromData_eq, List.mem_map] at hc
  obtain ⟨k, hk, rfl⟩ := hc
  rw [detectColumn_name]
  exact ⟨rfl, hk⟩

theorem length_ge_two_mul_dedup {α : Type} [DecidableEq α] (l : List α)
    (h : ∀ x ∈ l, 2 ≤ l.count x) : 2 * l.dedup.length ≤ l.length := by
  have hsum := List.sum_map_count_dedup_eq_length l
  have hle : ∀ (d : List α), (∀ x ∈ d, 2 ≤ l.count x) →
      2 * d.length ≤ (d.map fun x => l.count x).sum := by
    intro d
    induction d with
    | nil => intro _; simp
    | cons a d ih =>
      intro hd
      have h₁ := hd a (List.mem_cons_self a d)
      have h₂ := ih fun x hx => hd x (List.mem_cons_of_mem a hx)
      simp only [List.length_cons, List.map_cons, List.sum_cons]
      omega
  have := hle l.dedup fun x hx => h x (List.mem_dedup.mp hx)
  omega

/-- A column of thirty sampled rows with six distinct values, each repeated,
and a non-empty value among them meets the cardinality bound. -/
theorem cardinalityBound_of_six (rows : List JSObj) (col : String) (h30 : rows.length = 30)
    (h6 : (columnValues rows col).dedup.length = 6)
    (hrep : ∀ v ∈ columnValues rows col, 2 ≤ (columnValues rows col).count v)
    (hpos : 0 < (nonEmptyValues rows col).length) : CardinalityBound rows col := by
  have hcount : ∀ k ∈ (nonEmptyValues rows col).map JSVal.toStr,
      2 ≤ ((nonEmptyValues rows col).map JSVal.toStr).count k := by
    intro k hk
    obtain ⟨v, hv, rfl⟩ := List.mem_map.mp hk
    have hv' := List.mem_filter.mp hv
    have h₁ := List.count_le_count_map (nonEmptyValues rows col) JSVal.toStr v
    have h₂ : (nonEmptyValues rows col).count v = (columnValues rows col).count v :=
      List.count_filter hv'.2
    have h₃ := hrep v hv'.1
    omega
  have hn := length_ge_two_mul_dedup _ hcount
  rw [List.length_map] at hn
  have hu : distinctCount rows col ≤ 6 := by
    unfold distinctCount
    rw [← h6, ← List.card_toFinset, ← List.card_toFinset]
    refine le_trans (Finset.card_le_card ?_)
      (Finset.card_image_le (s := (columnValues rows col).toFinset) (f := JSVal.toStr))
    intro k hk
    rw [List.mem_toFinset] at hk
    obtain ⟨v, hv, rfl⟩ := List.mem_map.mp hk
    exact Finset.mem_image_of_mem _ (List.mem_toFinset.mpr (List.mem_filter.mp hv).1)
  refine ⟨hpos, ?_, ?_⟩
  · unfold distinctCount; omega
  · rw [h30]
    exact le_trans hu (by decide)

/-- C13, as stated, fails: thirty rows with six distinct values, five times
each, are a `number` column when the values are numerals and a `date` column
when they are dates. -/
theorem six_values_counterexample :
    gradeRows.length = 30 ∧ (columnValues gradeRows "grade").dedup.length = 6 ∧
      (∀ v ∈ columnValues gradeRows "grade", (columnValues gradeRows "grade").count v = 5) ∧
      (detectColumnsFromData hostNone (some gradeRows)).map (fun c => (c.name, c.type)) =
        [("grade", "number")] ∧
    shiftRows.length = 30 ∧ (columnValues shiftRows "shift").dedup.length = 6 ∧
      (∀ v ∈ columnValues shiftRows "shift", (columnValues shiftRows "shift").count v = 5) ∧
      (detectColumnsFromData hostNone (some shiftRows)).map (fun c => (c.name, c.type)) =
        [("shift", "date")] := by
  decide

/-- C13, amended: in a dataset of thirty rows, a column that takes exactly six
distinct values, each repeated across the rows, is classified `categorical`
provided it is neither `number` nor `date`: fewer than nine tenths of its
non-empty values parse as numbers and one non-empty value fails the date test. -/
theorem detectColumnsFromData_six_values (host : String → Option Int) (rows : List JSObj)
    (col : String) (h30 : rows.length = 30)
    (h6 : (columnValues rows col).dedup.length = 6)
    (hrep : ∀ v ∈ columnValues rows col, 2 ≤ (columnValues rows col).count v)
    (hnum : ¬ NumericThreshold rows col)
    (hdate : ∃ v ∈ nonEmptyValues rows col, ¬ PassesDateTest host v) :
    ∀ c ∈ detectColumnsFromData host (some rows), c.name = col → c.type = "categorical" := by
  intro c hc hname
  have htake : rows.take 50 = rows := List.take_of_length_le (by omega)
  have hcd := (mem_detectColumnsFromData host rows c hc).1
  rw [htake, hname] at hcd
  obtain ⟨v, hv, hfail⟩ := hdate
  have hpos : 0 < (nonEmptyValues rows col).length := List.length_pos_of_mem hv
  rw [hcd]
  exact (detectColumn_type_iff host rows col).2.2.1.mpr
    ⟨hnum, fun h => hfail (h.2 v hv), cardinalityBound_of_six rows col h30 h6 hrep hpos⟩

/-- C13 amended, at `colourRows`: six colour names, five times each. -/
theorem detectColumnsFromData_six_values_witness :
    ∃ c ∈ detectColumnsFromData hostNone (some colourRows),
      c.name = "colour" ∧ c.type = "categorical" :=
  ⟨detectColumn hostNone colourRows "colour", by decide, by decide,
    detectColumnsFromData_six_values hostNone colourRows "colour" (by decide) (by decide)
      (by decide) (by decide)
      ⟨.str "red", by decide,
        fun h => absurd ((isValidDate_iff hostNone (.str "red")).mpr h) (by decide)⟩
      (detectColumn hostNone colourRows "colour") (by decide) (by decide)⟩

theorem detectColumn_total (host : String → Option Int) (sample : List JSObj) (col : String) :
    (detectColumn host sample col).stats.total = sample.length := by
  simp only [detectColumn]
  split_ifs <;> simp

/-- C15: the profiler reads the first `min(50, rows.length)` rows only: the
profiles of `rows` are those of its first 50 rows, two datasets with the same
first 50 rows have the same profiles, and `stats.total` is at most 50. -/
theorem detectColumnsFromData_sample (host : String → Option Int) (rows : List JSObj) :
    detectColumnsFromData host (some rows) = detectColumnsFromData host (some (rows.take 50)) ∧
    (∀ rows' : List JSObj, rows'.take 50 = rows.take 50 →
      detectColumnsFromData host (some rows') = detectColumnsFromData host (some rows)) ∧
    (∀ c ∈ detectColumnsFromData host (some rows), c.stats.total ≤ 50) := by
  refine ⟨?_, ?_, ?_⟩
  · rw [detectColumnsFromData_eq, detectColumnsFromData_eq host (rows.take 50), List.take_take,
      Nat.min_self]
  · intro rows' h
    rw [detectColumnsFromData_eq, detectColumnsFromData_eq host rows, h]
  · intro c hc
    rw [(mem_detectColumnsFromData host rows c hc).1, detectColumn_total, List.length_take]
    exact Nat.min_le_left _ _

/-- C15 at sixty rows, fifty numerals followed by ten words: the words are
never read, the column is `number` with `total` 50. -/
theorem detectColumnsFromData_sample_witness :
    (detectColumnsFromData hostNone
        (some (List.replicate 50 [("v", .str "7")] ++ List.replicate 10 [("v", .str "x")]))).map
      (fun c => (c.type, c.stats.total)) = [("number", 50)] := by
  decide

/-! ## Column profiler: the column set and missing cells -/

theorem detectColumnsFromData_names (host : String → Option Int) (rows : List JSObj) :
    (detectColumnsFromData host (some rows)).map (fun c => c.name) =
      (rows.head?.getD []).keys := by
  rw [detectColumnsFromData_eq, List.map_map]
  have h : (rows.take 50).head? = rows.head? := by cases rows <;> rfl
  rw [h]
  conv_rhs => rw [← List.map_id (rows.head?.getD []).keys]
  apply List.map_congr_left
  intro k _
  exact detectColumn_name host _ k

theorem get_of_not_own (r : JSObj) (k : String) (hown : k ∉ r.map Prod.fst)
    (hproto : k ∉ protoKeys) : r.get k = .undefined := by
  unfold JSObj.get
  have : r.lookup k = none := by
    rw [List.lookup_eq_none_iff]
    intro p hp
    rw [bne_iff_ne]
    intro hpk
    exact hown (List.mem_map.mpr ⟨p, hp, hpk.symm⟩)
  rw [this]
  simp [hproto]

/-- C16, evaluated: the profiler returns nothing for `null` or empty rows and
otherwise one profile per key of the first row, in key order and named by the
key; a cell missing from a row reads as `undefined`, an empty value, unless
its key names a property inherited from `Object.prototype`: in `raceRows` the
row that lacks the key `constructor` contributes the inherited function, which
is counted as a non-empty value. -/
theorem detectColumnsFromData_inherited_cell :
    (∀ host, detectColumnsFromData host none = [] ∧ detectColumnsFromData host (some []) = []) ∧
    (∀ host rows, (detectColumnsFromData host (some rows)).map (fun c => c.name) =
      (rows.head?.getD []).keys) ∧
    (∀ (r : JSObj) (k : String), k ∉ r.map Prod.fst → k ∉ protoKeys →
      r.get k = .undefined ∧ isNonEmpty (r.get k) = false) ∧
    (detectColumnsFromData hostNone (some teamRows)).map
        (fun c => (c.name, c.stats.validCount, c.stats.total)) =
      [("team", 1, 2), ("points", 2, 2)] ∧
    columnValues raceRows "constructor" = [.str "Ferrari", .native "constructor"] ∧
    (detectColumnsFromData hostNone (some raceRows)).map
        (fun c => (c.name, c.stats.validCount, c.stats.total)) =
      [("constructor", 2, 2), ("points", 2, 2)] := by
  refine ⟨fun _ => ⟨rfl, rfl⟩, detectColumnsFromData_names, ?_, by decide, by decide, by decide⟩
  intro r k hown hproto
  rw [get_of_not_own r k hown hproto]
  exact ⟨rfl, rfl⟩

/-! ## Column profiler: columns without values -/

/-- C17: a column with no non-empty sampled value gets type `text`, `use`
false, an empty `sample` and the statistics `validCount` 0 and `total` the
number of sampled rows. -/
theorem detectColumn_empty (host : String → Option Int) (sample : List JSObj) (col : String)
    (h : nonEmptyValues sample col = []) :
    detectColumn host sample col = emptyProfile col sample.length := by
  have h' : (List.filter isNonEmpty (List.map (fun r => r.get col) sample)).length = 0 := by
    have := congrArg List.length h
    simpa [nonEmptyValues, columnValues] using this
  simp only [detectColumn, h', if_true, emptyProfile, List.length_map]

/-- C17 at the column `note` of `blankRows`. -/
theorem detectColumn_empty_witness :
    detectColumn hostNone blankRows "note" = emptyProfile "note" 5 :=
  detectColumn_empty hostNone blankRows "note" (by decide)

/-! ## Chart advisor: both axes selected -/

theorem findByName_eq_some {colsMeta : List ColMeta} {sel : JSVal} {m : ColMeta}
    (h : findByName colsMeta sel = some m) : JSVal.str m.name = sel ∧ m ∈ colsMeta := by
  unfold findByName at h
  exact ⟨by simpa using List.find?_some h, List.mem_of_find?_eq_some h⟩

/-- C18: with profiles found for both selections and y a number, the
suggestion keeps x = selectedX and y = selectedY and is `line` for a date x,
`bar` with reason "categorical comparison" for a categorical x, `scatter` for
a number x and `bar` with reason "numeric analysis" for any other x. -/
theorem suggestChart_both_selected (colsMeta : List ColMeta) (selectedX selectedY : JSVal)
    (xMeta yMeta : ColMeta) (hx : findByName colsMeta selectedX = some xMeta)
    (hy : findByName colsMeta selectedY = some yMeta) (hnum : yMeta.type = "number") :
    (xMeta.type = "date" → suggestChart colsMeta selectedX selectedY =
      { type := "line", reason := "time series data", x := selectedX, y := selectedY,
        viewType := none }) ∧
    (xMeta.type = "categorical" → suggestChart colsMeta selectedX selectedY =
      { type := "bar", reason := "categorical comparison", x := selectedX, y := selectedY,
        viewType := none }) ∧
    (xMeta.type = "number" → suggestChart colsMeta selectedX selectedY =
      { type := "scatter", reason := "correlation analysis", x := selectedX, y := selectedY,
        viewType := none }) ∧
    (xMeta.type ≠ "date" → xMeta.type ≠ "categorical" → xMeta.type ≠ "number" →
      suggestChart colsMeta selectedX selectedY =
      { type := "bar", reason := "numeric analysis", x := selectedX, y := selectedY,
        viewType := none }) := by
  have hxn := (findByName_eq_some hx).1
  have hyn := (findByName_eq_some hy).1
  refine ⟨?_, ?_, ?_, ?_⟩
  · intro ht
    simp [suggestChart, hx, hy, hnum, ht, hxn, hyn]
  · intro ht
    simp [suggestChart, hx, hy, hnum, ht, hxn, hyn]
  · intro ht
    simp [suggestChart, hx, hy, hnum, ht, hxn, hyn]
  · intro h₁ h₂ h₃
    simp [suggestChart, hx, hy, hnum, h₁, h₂, h₃, hxn, hyn]

/-- C18 at `sampleProfiles` with x `region` and y `sales`. -/
theorem suggestChart_both_selected_witness :
    suggestChart sampleProfiles (.str "region") (.str "sales") =
      { type := "bar", reason := "categorical comparison", x := .str "region",
        y := .str "sales", viewType := none } :=
  (suggestChart_both_selected sampleProfiles (.str "region") (.str "sales")
    (sampleProfiles.get ⟨1, by decide⟩) (sampleProfiles.get ⟨3, by decide⟩)
    (by decide) (by decide) (by decide)).2.1 (by decide)

/-- C19, as stated, fails: with x `region` and y `day` selected, both found
and y not a number, the suggestion is the last fallback, not the bar chart
that the single-axis rule gives for x `region`; and for profiles without a
number column it is not what the automatic branch returns. -/
theorem suggestChart_no_fall_through_counterexample :
    suggestChart sampleProfiles (.str "region") (.str "day") = noSuitableColumns ∧
    suggestChart sampleProfiles (.str "region") .undefined =
      { type := "bar", reason := "numeric analysis", x := .str "region", y := .str "sales",
        viewType := none } ∧
    suggestChart eventProfiles (.str "venue") (.str "day") = noSuitableColumns ∧
    suggestChart eventProfiles .undefined .undefined =
      { type := "pie", reason := "categorical distribution", x := .str "venue", y := .null,
        viewType := some "frequency" } := by
  decide

/-- C19, amended: with profiles found for both selections and y not a number,
no later branch applies, each being guarded by a selection without profile,
and the suggestion is the table fallback "no suitable columns - use data
explorer" without axes, whatever number columns there are. -/
theorem suggestChart_both_selected_not_number (colsMeta : List ColMeta)
    (selectedX selectedY : JSVal) (xMeta yMeta : ColMeta)
    (hx : findByName colsMeta selectedX = some xMeta)
    (hy : findByName colsMeta selectedY = some yMeta) (hnot : yMeta.type ≠ "number") :
    suggestChart colsMeta selectedX selectedY = noSuitableColumns := by
  simp [suggestChart, hx, hy, hnot, suggestRest, noSuitableColumns]

/-- C19 amended, at `sampleProfiles` with x `region` and y `day`. -/
theorem suggestChart_both_selected_not_number_witness :
    suggestChart sampleProfiles (.str "region") (.str "day") = noSuitableColumns :=
  suggestChart_both_selected_not_number sampleProfiles (.str "region") (.str "day")
    (sampleProfiles.get ⟨1, by decide⟩) (sampleProfiles.get ⟨2, by decide⟩)
    (by decide) (by decide) (by decide)

/-! ## Chart advisor: automatic mode without a date column -/

theorem filter_eq_cons_split {α : Type} (p : α → Bool) (l : List α) (a : α) (rest : List α)
    (h : l.filter p = a :: rest) :
    ∃ pre post, l = pre ++ a :: post ∧ p a = true ∧ (∀ x ∈ pre, p x = false) ∧
      post.filter p = rest := by
  induction l with
  | nil => cases h
  | cons x xs ih =>
    by_cases hx : p x = true
    · rw [List.filter_cons_of_pos hx] at h
      obtain ⟨rfl, rfl⟩ := List.cons.inj h
      exact ⟨[], xs, rfl, hx, fun _ hm => absurd hm (List.not_mem_nil _), rfl⟩
    · rw [List.filter_cons_of_neg hx] at h
      obtain ⟨pre, post, rfl, ha, hpre, hpost⟩ := ih h
      refine ⟨x :: pre, post, rfl, ha, ?_, hpost⟩
      intro y hy
      rcases List.mem_cons.mp hy with rfl | hy
      · simpa using hx
      · exact hpre y hy

theorem filter_type_eq_cons_cons {t : String} {a b : ColMeta} {l rest : List ColMeta}
    (h : l.filter (fun c => c.type == t) = a :: b :: rest) : FirstTwoOfType t a b l := by
  obtain ⟨pre, post, rfl, ha, hpre, hpost⟩ := filter_eq_cons_split _ l a _ h
  obtain ⟨mid, post', rfl, hb, hmid, -⟩ := filter_eq_cons_split _ post b _ hpost
  refine ⟨pre, mid, post', rfl, by simpa using ha, by simpa using hb, ?_, ?_⟩
  · intro c hc; simpa using hpre c hc
  · intro c hc; simpa using hmid c hc

theorem filter_type_eq_nil {t : String} {l : List ColMeta} (h : ∀ c ∈ l, c.type ≠ t) :
    l.filter (fun c => c.type == t) = [] := by
  rw [List.filter_eq_nil_iff]
  intro c hc
  simpa using h c hc

theorem find?_type_eq_none {t : String} {l : List ColMeta} (h : ∀ c ∈ l, c.type ≠ t) :
    l.find? (fun c => c.type == t) = none := by
  rw [List.find?_eq_none]
  intro c hc
  simpa using h c hc

/-- C20: in auto mode with a number column and no date column, the suggestion
is `bar` over the first categorical and the first number column when a
categorical column exists; else `scatter` over the first and the second
number column when there are two; else, with one number column and a text
column, `bar` over the first categorical-or-text column and that number
column. First is the position in the profile order. -/
theorem suggestChart_auto_no_date (colsMeta : List ColMeta) (selectedX selectedY : JSVal)
    (hx : findByName colsMeta selectedX = none) (hy : findByName colsMeta selectedY = none)
    (hn : ∃ c ∈ colsMeta, c.type = "number") (hnd : ∀ c ∈ colsMeta, c.type ≠ "date") :
    ((∃ c ∈ colsMeta, c.type = "categorical") →
      ∃ c n, FirstOfType "categorical" c colsMeta ∧ FirstOfType "number" n colsMeta ∧
        suggestChart colsMeta selectedX selectedY =
          { type := "bar", reason := "categorical analysis", x := .str c.name,
            y := .str n.name, viewType := none }) ∧
    ((∀ c ∈ colsMeta, c.type ≠ "categorical") →
      2 ≤ colsMeta.countP (fun c => c.type == "number") →
      ∃ a b, FirstTwoOfType "number" a b colsMeta ∧
        suggestChart colsMeta selectedX selectedY =
          { type := "scatter", reason := "correlation analysis", x := .str a.name,
            y := .str b.name, viewType := none }) ∧
    ((∀ c ∈ colsMeta, c.type ≠ "categorical") →
      colsMeta.countP (fun c => c.type == "number") = 1 →
      (∃ c ∈ colsMeta, c.type = "text") →
      ∃ t n, FirstCategoricalOrText t colsMeta ∧ FirstOfType "number" n colsMeta ∧
        suggestChart colsMeta selectedX selectedY =
          { type := "bar", reason := "data analysis", x := .str t.name, y := .str n.name,
            viewType := none }) := by
  have hs : suggestChart colsMeta selectedX selectedY = suggestAuto colsMeta := by
    simp only [suggestChart, hx, hy, suggestRest]
  have hdate := find?_type_eq_none hnd
  obtain ⟨n, rest, hnum⟩ := exists_filter_type_cons hn
  rw [hs]
  refine ⟨?_, ?_, ?_⟩
  · intro hc
    obtain ⟨c, crest, hcat⟩ := exists_filter_type_cons hc
    refine ⟨c, n, filter_type_eq_cons hcat, filter_type_eq_cons hnum, ?_⟩
    simp [suggestAuto, hdate, hnum, hcat]
  · intro hnc h2
    have hcat := filter_type_eq_nil hnc
    rw [List.countP_eq_length_filter, hnum] at h2
    cases rest with
    | nil => simp at h2
    | cons b rest' =>
      refine ⟨n, b, filter_type_eq_cons_cons hnum, ?_⟩
      simp [suggestAuto, hdate, hnum, hcat]
  · intro hnc h1 htext
    have hcat := filter_type_eq_nil hnc
    rw [List.countP_eq_length_filter, hnum] at h1
    have hrest : rest = [] := by
      cases rest with
      | nil => rfl
      | cons b rest' => simp at h1
    subst hrest
    obtain ⟨t, trest, htxt⟩ := exists_filter_type_cons htext
    obtain ⟨pre, post, hl, ht, hpre⟩ := filter_type_eq_cons htxt
    refine ⟨t, n, ⟨pre, post, hl, Or.inr ht, ?_⟩, filter_type_eq_cons hnum, ?_⟩
    · intro a ha
      refine ⟨hnc a ?_, hpre a ha⟩
      rw [hl]
      exact List.mem_append_left _ ha
    · simp [suggestAuto, hdate, hnum, hcat, htxt]

/-- C20 with nothing selected, at `shopProfiles` (a categorical column), at
`sensorProfiles` (two number columns) and at `ledgerProfiles` (one number
column and text columns). -/
theorem suggestChart_auto_no_date_witness :
    (∃ c n, FirstOfType "categorical" c shopProfiles ∧ FirstOfType "number" n shopProfiles ∧
      suggestChart shopProfiles (.str "") (.str "") =
        { type := "bar", reason := "categorical analysis", x := .str c.name,
          y := .str n.name, viewType := none }) ∧
    (∃ a b, FirstTwoOfType "number" a b sensorProfiles ∧
      suggestChart sensorProfiles (.str "") (.str "") =
        { type := "scatter", reason := "correlation analysis", x := .str a.name,
          y := .str b.name, viewType := none }) ∧
    (∃ t n, FirstCategoricalOrText t ledgerProfiles ∧ FirstOfType "number" n ledgerProfiles ∧
      suggestChart ledgerProfiles (.str "") (.str "") =
        { type := "bar", reason := "data analysis", x := .str t.name, y := .str n.name,
          viewType := none }) :=
  ⟨(suggestChart_auto_no_date shopProfiles (.str "") (.str "") (by decide) (by decide)
      ⟨shopProfiles.get ⟨1, by decide⟩, by decide, by decide⟩ (by decide)).1
      ⟨shopProfiles.get ⟨2, by decide⟩, by decide, by decide⟩,
    (suggestChart_auto_no_date sensorProfiles (.str "") (.str "") (by decide) (by decide)
      ⟨sensorProfiles.get ⟨0, by decide⟩, by decide, by decide⟩ (by decide)).2.1
      (by decide) (by decide),
    (suggestChart_auto_no_date ledgerProfiles (.str "") (.str "") (by decide) (by decide)
      ⟨ledgerProfiles.get ⟨2, by decide⟩, by decide, by decide⟩ (by decide)).2.2
      (by decide) (by decide) ⟨ledgerProfiles.get ⟨0, by decide⟩, by decide, by decide⟩⟩

/-! ## Chart advisor: automatic mode without a number column -/

/-- C21: in auto mode with no number column the suggestion is `pie` with
`viewType` "frequency", x the first categorical column and y `null` when a
categorical column exists; else `table` with `viewType` "timeline" and x the
first date column when a date column exists; else `table` with `viewType`
"explorer". For the empty profile sequence it is that last fallback whatever
the selections are. -/
theorem suggestChart_auto_no_number (colsMeta : List ColMeta) (selectedX selectedY : JSVal)
    (hx : findByName colsMeta selectedX = none) (hy : findByName colsMeta selectedY = none)
    (hnn : ∀ c ∈ colsMeta, c.type ≠ "number") :
    ((∃ c ∈ colsMeta, c.type = "categorical") →
      ∃ c, FirstOfType "categorical" c colsMeta ∧
        suggestChart colsMeta selectedX selectedY =
          { type := "pie", reason := "categorical distribution", x := .str c.name, y := .null,
            viewType := some "frequency" }) ∧
    ((∀ c ∈ colsMeta, c.type ≠ "categorical") → (∃ c ∈ colsMeta, c.type = "date") →
      ∃ d, FirstOfType "date" d colsMeta ∧
        suggestChart colsMeta selectedX selectedY =
          { type := "table", reason := "date-only dataset - use data explorer",
            x := .str d.name, y := .undefined, viewType := some "timeline" }) ∧
    ((∀ c ∈ colsMeta, c.type ≠ "categorical") → (∀ c ∈ colsMeta, c.type ≠ "date") →
      suggestChart colsMeta selectedX selectedY = noNumericColumns) ∧
    (∀ sx sy, suggestChart [] sx sy = noNumericColumns) := by
  have hs : suggestChart colsMeta selectedX selectedY = suggestAuto colsMeta := by
    simp only [suggestChart, hx, hy, suggestRest]
  have hnum := filter_type_eq_nil hnn
  rw [hs]
  refine ⟨?_, ?_, ?_, fun _ _ => rfl⟩
  · intro hc
    obtain ⟨c, crest, hcat⟩ := exists_filter_type_cons hc
    refine ⟨c, filter_type_eq_cons hcat, ?_⟩
    cases hd : colsMeta.find? (fun c => c.type == "date") <;>
      simp [suggestAuto, hd, hnum, hcat]
  · intro hnc hdt
    have hcat := filter_type_eq_nil hnc
    obtain ⟨d, hd⟩ := exists_find?_type hdt
    refine ⟨d, find?_type_eq_some hd, ?_⟩
    simp [suggestAuto, hd, hnum, hcat]
  · intro hnc hnd
    have hcat := filter_type_eq_nil hnc
    have hd := find?_type_eq_none hnd
    simp [suggestAuto, hd, hnum, hcat, noNumericColumns]

/-- C21 at `eventProfiles` (a categorical column) and `logProfiles` (dates
and text only), with nothing selected. -/
theorem suggestChart_auto_no_number_witness :
    (∃ c, FirstOfType "categorical" c eventProfiles ∧
      suggestChart eventProfiles (.str "") (.str "") =
        { type := "pie", reason := "categorical distribution", x := .str c.name, y := .null,
          viewType := some "frequency" }) ∧
    (∃ d, FirstOfType "date" d logProfiles ∧
      suggestChart logProfiles (.str "") (.str "") =
        { type := "table", reason := "date-only dataset - use data explorer",
          x := .str d.name, y := .undefined, viewType := some "timeline" }) :=
  ⟨(suggestChart_auto_no_number eventProfiles (.str "") (.str "") (by decide) (by decide)
      (by decide)).1 ⟨eventProfiles.get ⟨0, by decide⟩, by decide, by decide⟩,
    (suggestChart_auto_no_number logProfiles (.str "") (.str "") (by decide) (by decide)
      (by decide)).2.1 (by decide) ⟨logProfiles.get ⟨1, by decide⟩, by decide, by decide⟩⟩

/-! ## Chart advisor: one axis selected -/

theorem filter_catOrText_eq_cons {c : ColMeta} {l rest : List ColMeta}
    (h : l.filter (fun c => c.type == "categorical" || c.type == "text") = c :: rest) :
    FirstCategoricalOrText c l := by
  obtain ⟨pre, post, rfl, hc, hpre, -⟩ := filter_eq_cons_split _ l c _ h
  refine ⟨pre, post, rfl, by simpa using hc, ?_⟩
  intro a ha
  simpa using hpre a ha

/-- C22: when only selectedX names a profile, the suggestion is `bar` with
x = selectedX, y the first number column and reason "numeric analysis" if a
number column exists, and the table fallback otherwise. -/
theorem suggestChart_only_x (colsMeta : List ColMeta) (selectedX selectedY : JSVal)
    (xMeta : ColMeta) (hx : findByName colsMeta selectedX = some xMeta)
    (hy : findByName colsMeta selectedY = none) :
    ((∃ c ∈ colsMeta, c.type = "number") →
      ∃ n, FirstOfType "number" n colsMeta ∧
        suggestChart colsMeta selectedX selectedY =
          { type := "bar", reason := "numeric analysis", x := selectedX, y := .str n.name,
            viewType := none }) ∧
    ((∀ c ∈ colsMeta, c.type ≠ "number") →
      suggestChart colsMeta selectedX selectedY = noSuitableColumns) := by
  have hxn := (findByName_eq_some hx).1
  refine ⟨?_, ?_⟩
  · intro hn
    obtain ⟨n, rest, hnum⟩ := exists_filter_type_cons hn
    refine ⟨n, filter_type_eq_cons hnum, ?_⟩
    simp [suggestChart, hx, hy, suggestRest, hnum, hxn]
  · intro hnn
    have hnum := filter_type_eq_nil hnn
    simp [suggestChart, hx, hy, suggestRest, hnum, noSuitableColumns]

/-- C22 at `sampleProfiles` with x `region` and no y. -/
theorem suggestChart_only_x_witness :
    ∃ n, FirstOfType "number" n sampleProfiles ∧
      suggestChart sampleProfiles (.str "region") (.str "") =
        { type := "bar", reason := "numeric analysis", x := .str "region", y := .str n.name,
          viewType := none } :=
  (suggestChart_only_x sampleProfiles (.str "region") (.str "")
    (sampleProfiles.get ⟨1, by decide⟩) (by decide) (by decide)).1
    ⟨sampleProfiles.get ⟨3, by decide⟩, by decide, by decide⟩

/-- C23: when only selectedY names a profile, the suggestion is `bar` with
y = selectedY, x the first categorical-or-text column and reason "comparison
analysis" if that profile is a number and such a column exists, and the table
fallback otherwise. -/
theorem suggestChart_only_y (colsMeta : List ColMeta) (selectedX selectedY : JSVal)
    (yMeta : ColMeta) (hx : findByName colsMeta selectedX = none)
    (hy : findByName colsMeta selectedY = some yMeta) :
    (yMeta.type = "number" →
      (∃ c ∈ colsMeta, c.type = "categorical" ∨ c.type = "text") →
      ∃ t, FirstCategoricalOrText t colsMeta ∧
        suggestChart colsMeta selectedX selectedY =
          { type := "bar", reason := "comparison analysis", x := .str t.name, y := selectedY,
            viewType := none }) ∧
    ((yMeta.type ≠ "number" ∨
        ∀ c ∈ colsMeta, c.type ≠ "categorical" ∧ c.type ≠ "text") →
      suggestChart colsMeta selectedX selectedY = noSuitableColumns) := by
  have hyn := (findByName_eq_some hy).1
  refine ⟨?_, ?_⟩
  · rintro hnum ⟨c, hc, hct⟩
    have hm : c ∈ colsMeta.filter (fun c => c.type == "categorical" || c.type == "text") := by
      rw [List.mem_filter]
      exact ⟨hc, by simpa using hct⟩
    cases hf : colsMeta.filter (fun c => c.type == "categorical" || c.type == "text") with
    | nil => rw [hf] at hm; cases hm
    | cons t rest =>
      refine ⟨t, filter_catOrText_eq_cons hf, ?_⟩
      simp [suggestChart, hx, hy, suggestRest, hf, hnum, hyn]
  · intro h
    cases hf : colsMeta.filter (fun c => c.type == "categorical" || c.type == "text") with
    | nil => simp [suggestChart, hx, hy, suggestRest, hf, noSuitableColumns]
    | cons t rest =>
      rcases h with h | h
      · simp [suggestChart, hx, hy, suggestRest, hf, h, noSuitableColumns]
      · have hm : t ∈ colsMeta.filter (fun c => c.type == "categorical" || c.type == "text") := by
          rw [hf]; exact List.mem_cons_self _ _
        have ht := List.mem_filter.mp hm
        have := h t ht.1
        simp [this.1, this.2] at ht

/-- C23 at `sampleProfiles` with y `sales` and no x. -/
theorem suggestChart_only_y_witness :
    ∃ t, FirstCategoricalOrText t sampleProfiles ∧
      suggestChart sampleProfiles (.str "") (.str "sales") =
        { type := "bar", reason := "comparison analysis", x := .str t.name, y := .str "sales",
          viewType := none } :=
  (suggestChart_only_y sampleProfiles (.str "") (.str "sales")
    (sampleProfiles.get ⟨3, by decide⟩) (by decide) (by decide)).1 (by decide)
    ⟨sampleProfiles.get ⟨0, by decide⟩, by decide, by decide⟩

/-! ## Chart advisor: well-typed suggestions -/

theorem mem_of_filter_eq_cons {α : Type} {p : α → Bool} {l rest : List α} {a : α}
    (h : l.filter p = a :: rest) : a ∈ l ∧ p a = true := by
  have : a ∈ l.filter p := by rw [h]; exact List.mem_cons_self _ _
  exact List.mem_filter.mp this

theorem mem_of_filter_eq_cons_cons {α : Type} {p : α → Bool} {l rest : List α} {a b : α}
    (h : l.filter p = a :: b :: rest) : b ∈ l ∧ p b = true := by
  have : b ∈ l.filter p := by rw [h]; simp
  exact List.mem_filter.mp this

theorem wellTyped_bar (colsMeta : List ColMeta) (reason : String) (a b : ColMeta)
    (ha : a ∈ colsMeta) (hb : b ∈ colsMeta) (hnum : b.type = "number") :
    WellTyped colsMeta
      { type := "bar", reason := reason, x := .str a.name, y := .str b.name,
        viewType := none } := by
  refine ⟨fun _ => ⟨⟨a, ha, rfl⟩, ⟨b, hb, rfl, hnum⟩⟩, fun h => absurd h (by simp),
    fun h => absurd h (by simp), ?_, by simp⟩
  rintro (h | h) <;> exact absurd h (by simp)

theorem wellTyped_line (colsMeta : List ColMeta) (reason : String) (a b : ColMeta)
    (ha : a ∈ colsMeta) (hb : b ∈ colsMeta) (hdate : a.type = "date")
    (hnum : b.type = "number") :
    WellTyped colsMeta
      { type := "line", reason := reason, x := .str a.name, y := .str b.name,
        viewType := none } := by
  refine ⟨fun _ => ⟨⟨a, ha, rfl⟩, ⟨b, hb, rfl, hnum⟩⟩, fun _ => ⟨a, ha, rfl, hdate⟩,
    fun h => absurd h (by simp), ?_, by simp⟩
  rintro (h | h) <;> exact absurd h (by simp)

theorem wellTyped_scatter (colsMeta : List ColMeta) (reason : String) (a b : ColMeta)
    (ha : a ∈ colsMeta) (hb : b ∈ colsMeta) (hx : a.type = "number")
    (hnum : b.type = "number") :
    WellTyped colsMeta
      { type := "scatter", reason := reason, x := .str a.name, y := .str b.name,
        viewType := none } := by
  refine ⟨fun _ => ⟨⟨a, ha, rfl⟩, ⟨b, hb, rfl, hnum⟩⟩, fun h => absurd h (by simp),
    fun _ => ⟨a, ha, rfl, hx⟩, ?_, by simp⟩
  rintro (h | h) <;> exact absurd h (by simp)

theorem wellTyped_other (colsMeta : List ColMeta) (type reason : String) (x y : JSVal)
    (viewType : Option String) (ht : type = "pie" ∨ type = "table")
    (hx : AbsentOrName colsMeta x) (hy : AbsentOrName colsMeta y) :
    WellTyped colsMeta
      { type := type, reason := reason, x := x, y := y, viewType := viewType } := by
  rcases ht with rfl | rfl
  · refine ⟨?_, fun h => absurd h (by simp), fun h => absurd h (by simp),
      fun _ => ⟨hx, hy⟩, by simp⟩
    rintro (h | h | h) <;> exact absurd h (by simp)
  · refine ⟨?_, fun h => absurd h (by simp), fun h => absurd h (by simp),
      fun _ => ⟨hx, hy⟩, by simp⟩
    rintro (h | h | h) <;> exact absurd h (by simp)

theorem wellTyped_noSuitable (colsMeta : List ColMeta) :
    WellTyped colsMeta noSuitableColumns :=
  wellTyped_other colsMeta _ _ _ _ _ (Or.inr rfl) (Or.inr (Or.inl rfl)) (Or.inr (Or.inl rfl))

theorem suggestAuto_wellTyped (colsMeta : List ColMeta) :
    WellTyped colsMeta (suggestAuto colsMeta) := by
  have memN : ∀ {a rest}, colsMeta.filter (fun c => c.type == "number") = a :: rest →
      a ∈ colsMeta ∧ a.type = "number" := fun h => by
    simpa using mem_of_filter_eq_cons h
  have memN₂ : ∀ {a b rest}, colsMeta.filter (fun c => c.type == "number") = a :: b :: rest →
      b ∈ colsMeta ∧ b.type = "number" := fun h => by
    simpa using mem_of_filter_eq_cons_cons h
  have memC : ∀ {a rest}, colsMeta.filter (fun c => c.type == "categorical") = a :: rest →
      a ∈ colsMeta := fun h => (mem_of_filter_eq_cons h).1
  have memT : ∀ {a rest}, colsMeta.filter (fun c => c.type == "text") = a :: rest →
      a ∈ colsMeta := fun h => (mem_of_filter_eq_cons h).1
  have memD : ∀ {d}, colsMeta.find? (fun c => c.type == "date") = some d →
      d ∈ colsMeta ∧ d.type = "date" := fun h =>
    ⟨List.mem_of_find?_eq_some h, by simpa using List.find?_some h⟩
  rcases hd : colsMeta.find? (fun c => c.type == "date") with _ | d <;>
  rcases hn : colsMeta.filter (fun c => c.type == "number") with _ | ⟨n, _ | ⟨m, nrest⟩⟩ <;>
  rcases hc : colsMeta.filter (fun c => c.type == "categorical") with _ | ⟨c, crest⟩ <;>
  rcases ht : colsMeta.filter (fun c => c.type == "text") with _ | ⟨t, trest⟩ <;>
  simp only [suggestAuto, hd, hn, hc, ht, List.head?, Option.orElse]
  all_goals first
    | exact wellTyped_line _ _ _ _ (memD hd).1 (memN hn).1 (memD hd).2 (memN hn).2
    | exact wellTyped_bar _ _ _ _ (memC hc) (memN hn).1 (memN hn).2
    | exact wellTyped_scatter _ _ _ _ (memN hn).1 (memN₂ hn).1 (memN hn).2 (memN₂ hn).2
    | exact wellTyped_bar _ _ _ _ (memT ht) (memN hn).1 (memN hn).2
    | exact wellTyped_other _ _ _ _ _ _ (Or.inl rfl) (Or.inr (Or.inr ⟨c, memC hc, rfl⟩))
        (Or.inl rfl)
    | exact wellTyped_other _ _ _ _ _ _ (Or.inr rfl) (Or.inr (Or.inr ⟨d, (memD hd).1, rfl⟩))
        (Or.inr (Or.inl rfl))
    | exact wellTyped_other _ _ _ _ _ _ (Or.inr rfl) (Or.inr (Or.inl rfl)) (Or.inr (Or.inl rfl))

theorem suggestRest_wellTyped (colsMeta : List ColMeta) (xMeta yMeta : Option ColMeta)
    (hx : ∀ a, xMeta = some a → a ∈ colsMeta) (hy : ∀ b, yMeta = some b → b ∈ colsMeta) :
    WellTyped colsMeta (suggestRest colsMeta xMeta yMeta) := by
  rcases xMeta with _ | a <;> rcases yMeta with _ | b
  · exact suggestAuto_wellTyped colsMeta
  · rcases hf : colsMeta.filter (fun c => c.type == "categorical" || c.type == "text")
      with _ | ⟨c, rest⟩
    · simp only [suggestRest, hf]
      exact wellTyped_noSuitable colsMeta
    · by_cases hnum : b.type = "number"
      · simp only [suggestRest, hf, hnum, if_true]
        exact wellTyped_bar _ _ _ _ (mem_of_filter_eq_cons hf).1 (hy b rfl) hnum
      · simp only [suggestRest, hf, hnum, if_false]
        exact wellTyped_noSuitable colsMeta
  · rcases hf : colsMeta.filter (fun c => c.type == "number") with _ | ⟨n, rest⟩
    · simp only [suggestRest, hf]
      exact wellTyped_noSuitable colsMeta
    · simp only [suggestRest, hf]
      exact wellTyped_bar _ _ _ _ (hx a rfl) (mem_of_filter_eq_cons hf).1
        (by simpa using (mem_of_filter_eq_cons hf).2)
  · exact wellTyped_noSuitable colsMeta

/-- C28: every suggestion of `suggestChart` is well-typed with respect to the
profiles: a line, bar or scatter suggestion names profiled columns on both axes
with a number-typed y, a line has a date-typed x, a scatter has a number-typed
x, and any x or y of a pie or table suggestion that is not null or undefined
names a profiled column. -/
theorem suggestChart_wellTyped (colsMeta : List ColMeta) (selectedX selectedY : JSVal) :
    WellTyped colsMeta (suggestChart colsMeta selectedX selectedY) := by
  have key : ∀ xm ym, findByName colsMeta selectedX = xm → findByName colsMeta selectedY = ym →
      WellTyped colsMeta (suggestRest colsMeta xm ym) := fun xm ym h₁ h₂ =>
    suggestRest_wellTyped colsMeta xm ym
      (fun a ha => (findByName_eq_some (h₁.trans ha)).2)
      (fun b hb => (findByName_eq_some (h₂.trans hb)).2)
  rcases hx : findByName colsMeta selectedX with _ | a <;>
  rcases hy : findByName colsMeta selectedY with _ | b
  · simpa only [suggestChart, hx, hy] using key _ _ hx hy
  · simpa only [suggestChart, hx, hy] using key _ _ hx hy
  · simpa only [suggestChart, hx, hy] using key _ _ hx hy
  · have ha := (findByName_eq_some hx).2
    have hb := (findByName_eq_some hy).2
    simp only [suggestChart, hx, hy]
    split_ifs with h₁ h₂ h₃ h₄
    · exact wellTyped_line _ _ _ _ ha hb h₁.1 h₁.2
    · exact wellTyped_bar _ _ _ _ ha hb h₂.2
    · exact wellTyped_scatter _ _ _ _ ha hb h₃.1 h₃.2
    · exact wellTyped_bar _ _ _ _ ha hb h₄
    · exact key _ _ hx hy

/-! ## Chart advisor: unreachable alternatives of the automatic branch -/

theorem type_ne_of_filter_eq_nil {t : String} {l : List ColMeta}
    (h : l.filter (fun c => c.type == t) = []) : ∀ c ∈ l, c.type ≠ t := by
  intro c hc
  simpa using List.filter_eq_nil_iff.mp h c hc

theorem type_ne_of_find?_eq_none {t : String} {l : List ColMeta}
    (h : l.find? (fun c => c.type == t) = none) : ∀ c ∈ l, c.type ≠ t := by
  intro c hc
  simpa using List.find?_eq_none.mp h c hc

/-- C29: in the automatic branch, when the fourth rule fires (reason "data
analysis") the profiles hold no categorical and no date column and the chosen
x is the first text-typed column, so the categorical alternative of the x
choice is never taken; and whenever control reaches the sixth rule (the first
five guards are false, which is exactly when a table is suggested) no
categorical column exists. -/
theorem suggestAuto_unreachable_alternatives (colsMeta : List ColMeta) :
    ((suggestAuto colsMeta).reason = "data analysis" →
      (∀ c ∈ colsMeta, c.type ≠ "categorical") ∧ (∀ c ∈ colsMeta, c.type ≠ "date") ∧
      ∃ t n, FirstOfType "text" t colsMeta ∧
        colsMeta.filter (fun c => c.type == "number") = [n] ∧
        suggestAuto colsMeta =
          { type := "bar", reason := "data analysis", x := .str t.name, y := .str n.name,
            viewType := none }) ∧
    (reachesRuleSix colsMeta → ∀ c ∈ colsMeta, c.type ≠ "categorical") ∧
    ((suggestAuto colsMeta).type = "table" ↔ reachesRuleSix colsMeta) := by
  rcases hd : colsMeta.find? (fun c => c.type == "date") with _ | d <;>
  rcases hn : colsMeta.filter (fun c => c.type == "number") with _ | ⟨n, _ | ⟨m, nrest⟩⟩ <;>
  rcases hc : colsMeta.filter (fun c => c.type == "categorical") with _ | ⟨c, crest⟩ <;>
  rcases ht : colsMeta.filter (fun c => c.type == "text") with _ | ⟨t, trest⟩ <;>
  refine ⟨?_, ?_, ?_⟩ <;>
  simp only [suggestAuto, reachesRuleSix, hd, hn, hc, ht, List.head?, Option.orElse] <;>
  first
    | exact fun _ => ⟨type_ne_of_filter_eq_nil hc, type_ne_of_find?_eq_none hd, t, n,
        filter_type_eq_cons ht, rfl, rfl⟩
    | exact fun _ => type_ne_of_filter_eq_nil hc
    | simp

/-- C29 at `ledgerProfiles`, where the fourth rule fires, and at `logProfiles`,
where control reaches the sixth rule. -/
theorem suggestAuto_unreachable_alternatives_witness :
    ((∀ c ∈ ledgerProfiles, c.type ≠ "categorical") ∧
      (∀ c ∈ ledgerProfiles, c.type ≠ "date") ∧
      ∃ t n, FirstOfType "text" t ledgerProfiles ∧
        ledgerProfiles.filter (fun c => c.type == "number") = [n] ∧
        suggestAuto ledgerProfiles =
          { type := "bar", reason := "data analysis", x := .str t.name, y := .str n.name,
            viewType := none }) ∧
    (reachesRuleSix logProfiles ∧ ∀ c ∈ logProfiles, c.type ≠ "categorical") :=
  ⟨(suggestAuto_unreachable_alternatives ledgerProfiles).1 (by decide),
    by decide, (suggestAuto_unreachable_alternatives logProfiles).2.1 (by decide)⟩

/-! ## Column profiler: the sample-size part of the cardinality bound -/

theorem nonEmptyValues_length_le (sample : List JSObj) (col : String) :
    (nonEmptyValues sample col).length ≤ sample.length := by
  unfold nonEmptyValues columnValues
  exact (List.length_filter_le _ _).trans (by simp)

/-- C27: with `u` distinct values among the `n` non-empty values of a column
out of `s` sampled rows, whenever `u / n * 100 ≤ 50` holds the test
`u ≤ min(20, max(5, floor(s / 2)))` is equivalent to `u ≤ 20`; hence the
categorical test and the column type are the same as with the bound `u ≤ 20`,
for every sample. -/
theorem isCategorical_sample_bound (host : String → Option Int) (sample : List JSObj)
    (col : String) :
    (percentAtMostFifty (uniqueValues (nonEmptyValues sample col)).length
        (nonEmptyValues sample col).length = true →
      ((uniqueValues (nonEmptyValues sample col)).length ≤ min 20 (max 5 (sample.length / 2)) ↔
        (uniqueValues (nonEmptyValues sample col)).length ≤ 20)) ∧
    isCategorical host sample.length (nonEmptyValues sample col) =
      (percentAtMostFifty (uniqueValues (nonEmptyValues sample col)).length
          (nonEmptyValues sample col).length &&
        decide ((uniqueValues (nonEmptyValues sample col)).length ≤ 20) &&
        !isNumber (nonEmptyValues sample col) && !isDate host (nonEmptyValues sample col)) ∧
    columnType host sample.length (nonEmptyValues sample col) =
      (if isNumber (nonEmptyValues sample col) then "number"
       else if isDate host (nonEmptyValues sample col) then "date"
       else if percentAtMostFifty (uniqueValues (nonEmptyValues sample col)).length
          (nonEmptyValues sample col).length &&
        decide ((uniqueValues (nonEmptyValues sample col)).length ≤ 20) &&
        !isNumber (nonEmptyValues sample col) && !isDate host (nonEmptyValues sample col)
        then "categorical"
       else "text") := by
  have hle := nonEmptyValues_length_le sample col
  have key : percentAtMostFifty (uniqueValues (nonEmptyValues sample col)).length
        (nonEmptyValues sample col).length = true →
      ((uniqueValues (nonEmptyValues sample col)).length ≤ min 20 (max 5 (sample.length / 2)) ↔
        (uniqueValues (nonEmptyValues sample col)).length ≤ 20) := by
    intro h
    simp only [percentAtMostFifty, decide_eq_true_eq] at h
    omega
  have hcat : isCategorical host sample.length (nonEmptyValues sample col) =
      (percentAtMostFifty (uniqueValues (nonEmptyValues sample col)).length
          (nonEmptyValues sample col).length &&
        decide ((uniqueValues (nonEmptyValues sample col)).length ≤ 20) &&
        !isNumber (nonEmptyValues sample col) && !isDate host (nonEmptyValues sample col)) := by
    unfold isCategorical
    cases hp : percentAtMostFifty (uniqueValues (nonEmptyValues sample col)).length
        (nonEmptyValues sample col).length
    · simp
    · simp only [Bool.true_and, decide_eq_decide.mpr (key hp)]
  refine ⟨key, hcat, ?_⟩
  unfold columnType
  rw [hcat]

/-- C27 at the column `size` of `sizeRows`: three distinct values among six
non-empty ones out of six rows. -/
theorem isCategorical_sample_bound_witness :
    percentAtMostFifty (uniqueValues (nonEmptyValues sizeRows "size")).length
        (nonEmptyValues sizeRows "size").length = true ∧
      ((uniqueValues (nonEmptyValues sizeRows "size")).length ≤
          min 20 (max 5 (sizeRows.length / 2)) ↔
        (uniqueValues (nonEmptyValues sizeRows "size")).length ≤ 20) :=
  ⟨by decide, (isCategorical_sample_bound hostNone sizeRows "size").1 (by decide)⟩

/-! ## Series builder: bar and pie on a categorical x and a number y -/

/-- C24, as stated, fails: the unnamed column of `unnamedGroupRows` is profiled
as categorical and `n` as number, yet with these two columns the bar chart is
`null` while the pie chart has the labels `a`, `b` and the sums `3`, `7`. -/
theorem bar_pie_unnamed_counterexample :
    (detectColumnsFromData hostNone (some unnamedGroupRows)).map (fun c => (c.name, c.type)) =
      [("", "categorical"), ("n", "number")] ∧
    isCategoryNumber
      (findByName (detectColumnsFromData hostNone (some unnamedGroupRows)) (.str ""))
      (findByName (detectColumnsFromData hostNone (some unnamedGroupRows)) (.str "n")) = true ∧
    buildChartData hostNone (some unnamedGroupRows) (.str "") (.str "n") "bar"
        (detectColumnsFromData hostNone (some unnamedGroupRows)) = none ∧
    buildChartData hostNone (some unnamedGroupRows) (.str "") (.str "n") "pie"
        (detectColumnsFromData hostNone (some unnamedGroupRows)) =
      some { labels := some ["a", "b"], label := .undefined,
             data := .values [.num (.fin 3 0), .num (.fin 7 0)] } := by
  decide

/-- C24, amended: when xcol and ycol are truthy (not the empty name), x is
categorical and y is number, `buildChartData` with chartType "bar" and with
chartType "pie" returns the same labels and the same values: both are `null`
for missing or empty rows, and otherwise both carry the keys and the sums of
the same grouping of the rows. -/
theorem buildChartData_bar_pie_same (host : String → Option Int) (rows : Option (List JSObj))
    (xcol ycol : JSVal) (colsMeta : List ColMeta)
    (hx : xcol.truthy = true) (hy : ycol.truthy = true)
    (hcn : isCategoryNumber (findByName colsMeta xcol) (findByName colsMeta ycol) = true) :
    (buildChartData host rows xcol ycol "bar" colsMeta).map (fun p => (p.labels, p.data)) =
      (buildChartData host rows xcol ycol "pie" colsMeta).map (fun p => (p.labels, p.data)) ∧
    (∀ l, rows = some l → l ≠ [] →
      ∃ bar pie, buildChartData host rows xcol ycol "bar" colsMeta = some bar ∧
        buildChartData host rows xcol ycol "pie" colsMeta = some pie ∧
        bar.labels = pie.labels ∧ bar.data = pie.data ∧
        bar.labels = some (groupSum l xcol ycol).keys ∧
        bar.data = .values (groupSum l xcol ycol).values) := by
  have main : ∀ l : List JSObj, l ≠ [] →
      ∃ bar pie, buildChartData host (some l) xcol ycol "bar" colsMeta = some bar ∧
        buildChartData host (some l) xcol ycol "pie" colsMeta = some pie ∧
        bar.labels = pie.labels ∧ bar.data = pie.data ∧
        bar.labels = some (groupSum l xcol ycol).keys ∧
        bar.data = .values (groupSum l xcol ycol).values := by
    intro l hl
    obtain ⟨b, hb, hbl, hbd⟩ :=
      buildChartData_group_labels host l xcol ycol "bar" colsMeta hl hx hy (Or.inl rfl) hcn
    obtain ⟨p, hp, hpl, hpd⟩ :=
      buildChartData_group_labels host l xcol ycol "pie" colsMeta hl hx hy (Or.inr rfl) hcn
    exact ⟨b, p, hb, hp, hbl.trans hpl.symm, hbd.trans hpd.symm, hbl, hbd⟩
  refine ⟨?_, ?_⟩
  · rcases rows with _ | l
    · simp [buildChartData]
    · by_cases hl : l = []
      · subst hl
        simp [buildChartData]
      · obtain ⟨b, p, hb, hp, h₁, h₂, -, -⟩ := main l hl
        rw [hb, hp]
        simp [h₁, h₂]
  · rintro l rfl hl
    exact main l hl

/-- C24, amended, at the specification's example rows: both charts have the
labels `A`, `B` and the sums `4`, `2`. -/
theorem buildChartData_bar_pie_same_witness :
    (buildChartData hostNone (some letterRows) (.str "c") (.str "n") "bar" letterProfiles).map
        (fun p => (p.labels, p.data)) =
      (buildChartData hostNone (some letterRows) (.str "c") (.str "n") "pie" letterProfiles).map
        (fun p => (p.labels, p.data)) ∧
    (buildChartData hostNone (some letterRows) (.str "c") (.str "n") "pie" letterProfiles).map
        (fun p => (p.labels, p.data)) =
      some (some ["A", "B"], .values [.num (.fin 4 0), .num (.fin 2 0)]) :=
  ⟨(buildChartData_bar_pie_same hostNone (some letterRows) (.str "c") (.str "n") letterProfiles
      (by decide) (by decide) (by decide)).1, by decide⟩

/-! ## Series builder: per-row bar and line -/

/-- C25: outside bar's group-and-sum branch and line's date branch, on
non-empty rows and truthy columns, bar and line carry the same values and the
same series label, and the same labels when no x cell is `null` or missing;
but bar labels a row by `r[xcol] ?? ""` and line by `String(r[xcol])`, so on
`payerRows` the rows with a `null` or missing payer are labelled with the
empty text by bar and with `null` and `undefined` by line. -/
theorem buildChartData_bar_line_nullish :
    (∀ (host : String → Option Int) (rows : List JSObj) (xcol ycol : JSVal)
        (colsMeta : List ColMeta),
      rows ≠ [] → xcol.truthy = true → ycol.truthy = true →
      ((findByName colsMeta xcol).map fun c => c.type == "date") ≠ some true →
      isCategoryNumber (findByName colsMeta xcol) (findByName colsMeta ycol) = false →
      ∃ bar line, buildChartData host (some rows) xcol ycol "bar" colsMeta = some bar ∧
        buildChartData host (some rows) xcol ycol "line" colsMeta = some line ∧
        bar.data = line.data ∧ bar.label = line.label ∧
        bar.labels = some (rows.map fun r => (JSVal.nullish (r.getV xcol) (.str "")).toStr) ∧
        line.labels = some (rows.map fun r => (r.getV xcol).toStr) ∧
        ((∀ r ∈ rows, r.getV xcol ≠ .null ∧ r.getV xcol ≠ .undefined) →
          bar.labels = line.labels)) ∧
    (detectColumnsFromData hostNone (some payerRows)).map (fun c => (c.name, c.type)) =
      [("who", "text"), ("paid", "number")] ∧
    buildChartData hostNone (some payerRows) (.str "who") (.str "paid") "bar"
        (detectColumnsFromData hostNone (some payerRows)) =
      some { labels := some ["ann", "", ""], label := .str "paid",
             data := .values [.num (.fin 1 1), .num (.fin 2 1), .num (.fin 3 1)] } ∧
    buildChartData hostNone (some payerRows) (.str "who") (.str "paid") "line"
        (detectColumnsFromData hostNone (some payerRows)) =
      some { labels := some ["ann", "null", "undefined"], label := .str "paid",
             data := .values [.num (.fin 1 1), .num (.fin 2 1), .num (.fin 3 1)] } := by
  refine ⟨?_, by decide, by decide, by decide⟩
  intro host rows xcol ycol colsMeta hr hx hy hdate hcn
  have hlen : rows.length ≠ 0 := fun h => hr (List.length_eq_zero.mp h)
  have h₁ : ("bar" = "pie") = False := by decide
  have h₂ : ("bar" = "scatter") = False := by decide
  have h₃ : ("bar" = "line") = False := by decide
  have h₄ : ("line" = "pie") = False := by decide
  have h₅ : ("line" = "scatter") = False := by decide
  refine ⟨{ labels := some (rows.map fun r => (JSVal.nullish (r.getV xcol) (.str "")).toStr),
            label := ycol, data := .values (rows.map fun r => numberOrZero r ycol) },
          { labels := some (rows.map fun r => (r.getV xcol).toStr), label := ycol,
            data := .values (rows.map fun r => numberOrZero r ycol) }, ?_, ?_, rfl, rfl, rfl, rfl,
          ?_⟩
  · simp [buildChartData, hlen, hx, hy, hcn, h₁, h₂, h₃]
  · simp only [buildChartData, hlen, hx, hy, h₄, h₅, if_false, if_true, Bool.not_true,
      Bool.or_self, Bool.false_and, Bool.false_eq_true, hdate]
  · intro hall
    simp only [Option.some.injEq]
    apply List.map_congr_left
    intro r hr'
    have := hall r hr'
    cases hv : r.getV xcol <;> simp_all [JSVal.nullish]

/-! ## Series builder: the frequency count -/

theorem stripZeros_spec (fuel : Nat) (m e : Int) (hm : m ≠ 0) :
    e ≤ (JSNum.stripZeros fuel m e).2 ∧ (JSNum.stripZeros fuel m e).1 ≠ 0 ∧
      (JSNum.stripZeros fuel m e).1 * 10 ^ ((JSNum.stripZeros fuel m e).2 - e).toNat = m := by
  induction fuel generalizing m e with
  | zero => simp [JSNum.stripZeros, hm]
  | succ fuel ih =>
    unfold JSNum.stripZeros
    split_ifs with h
    · have hm' : m / 10 ≠ 0 := by omega
      obtain ⟨h₁, h₂, h₃⟩ := ih (m / 10) (e + 1) hm'
      refine ⟨by omega, h₂, ?_⟩
      have he : ((JSNum.stripZeros fuel (m / 10) (e + 1)).2 - e).toNat =
          ((JSNum.stripZeros fuel (m / 10) (e + 1)).2 - (e + 1)).toNat + 1 := by omega
      rw [he, pow_succ, ← mul_assoc, h₃]
      omega
    · simp [hm]

theorem ofInt_truthy (c : Int) (hc : c ≠ 0) : (JSNum.ofInt c).truthy = true := by
  unfold JSNum.ofInt JSNum.ofDec
  rw [if_neg hc]
  simpa [JSNum.truthy] using (stripZeros_spec c.natAbs c 0 hc).2.1

theorem ofInt_add_one (c : Int) : (JSNum.ofInt c).add (.fin 1 0) = JSNum.ofInt (c + 1) := by
  by_cases hc : c = 0
  · subst hc
    decide
  · obtain ⟨h₁, -, h₃⟩ := stripZeros_spec c.natAbs c 0 hc
    unfold JSNum.ofInt
    conv_lhs => unfold JSNum.ofDec
    rw [if_neg hc]
    simp only [JSNum.add]
    have hmin : min (JSNum.stripZeros c.natAbs c 0).2 0 = 0 := by omega
    rw [hmin]
    simp only [sub_zero, Int.toNat_zero, pow_zero, mul_one] at h₃ ⊢
    rw [h₃]

theorem mem_of_lookup_eq_some (o : JSObj) (k : String) (v : JSVal)
    (h : o.lookup k = some v) : (k, v) ∈ o := by
  induction o with
  | nil => simp at h
  | cons p o ih =>
    obtain ⟨a, b⟩ := p
    by_cases hk : k = a
    · subst hk
      simp only [List.lookup_cons, beq_self_eq_true] at h
      simp only [Option.some.injEq] at h
      subst h
      exact List.mem_cons_self _ _
    · have : (k == a) = false := by simpa using hk
      simp only [List.lookup_cons, this] at h
      exact List.mem_cons_of_mem _ (ih h)

theorem get_of_own (o : JSObj) (k : String) (hk : k ∈ o.map Prod.fst) :
    ∃ v, (k, v) ∈ o ∧ o.get k = v := by
  unfold JSObj.get
  cases hl : o.lookup k with
  | none =>
    rw [List.lookup_eq_none_iff] at hl
    obtain ⟨p, hp, rfl⟩ := List.mem_map.mp hk
    have := hl p hp
    simp at this
  | some v => exact ⟨v, mem_of_lookup_eq_some o k v hl, rfl⟩

theorem count_step (o : JSObj) (L : List String) (k : String)
    (hnd : (o.map Prod.fst).Nodup) (hmem : ∀ a, a ∈ o.map Prod.fst ↔ a ∈ L)
    (hval : ∀ p ∈ o, p.2 = .num (JSNum.ofInt (L.count p.1))) (hk : k ∉ protoKeys) :
    ((o.set k (JSVal.plus (JSVal.or (o.get k) (.num .zero)) (.num (.fin 1 0)))).map
        Prod.fst).Nodup ∧
    (∀ a, a ∈ (o.set k (JSVal.plus (JSVal.or (o.get k) (.num .zero)) (.num (.fin 1 0)))).map
        Prod.fst ↔ a ∈ L ++ [k]) ∧
    ∀ p ∈ o.set k (JSVal.plus (JSVal.or (o.get k) (.num .zero)) (.num (.fin 1 0))),
      p.2 = .num (JSNum.ofInt ((L ++ [k]).count p.1)) := by
  have hproto : k ≠ "__proto__" := fun h => hk (by rw [h]; decide)
  by_cases hown : k ∈ o.map Prod.fst
  · have hkeys : (o.set k (JSVal.plus (JSVal.or (o.get k) (.num .zero))
        (.num (.fin 1 0)))).map Prod.fst = o.map Prod.fst := by
      rw [set_map_fst, addKey, if_pos (Or.inl hown)]
    refine ⟨hkeys ▸ hnd, fun a => ?_, ?_⟩
    · rw [hkeys, hmem, List.mem_append, List.mem_singleton]
      constructor
      · exact Or.inl
      · rintro (h | rfl)
        · exact h
        · exact (hmem _).mp hown
    · obtain ⟨v, hv, hget⟩ := get_of_own o k hown
      have hv' := hval _ hv
      simp only at hv'
      have hpos : L.count k ≠ 0 := by
        rw [Ne, List.count_eq_zero]
        exact fun h => h ((hmem k).mp hown)
      have hnew : JSVal.plus (JSVal.or (o.get k) (.num .zero)) (.num (.fin 1 0)) =
          .num (JSNum.ofInt (L.count k + 1 : Nat)) := by
        have ht : (JSNum.ofInt (L.count k)).truthy = true :=
          ofInt_truthy _ (by exact_mod_cast hpos)
        rw [hget, hv']
        simp only [JSVal.or, JSVal.truthy, ht, if_true, JSVal.plus, JSVal.isStringy,
          Bool.or_self, Bool.false_eq_true, if_false, JSVal.toNum, ofInt_add_one]
        push_cast
        rfl
      intro p hp
      have hany : o.any (fun p => p.1 == k) = true := by
        rw [List.any_eq_true]
        exact ⟨(k, v), hv, by simp⟩
      unfold JSObj.set at hp
      rw [if_pos hany] at hp
      obtain ⟨q, hq, rfl⟩ := List.mem_map.mp hp
      by_cases hqk : q.1 = k
      · rw [if_pos hqk, hnew]
        simp [List.count_append]
      · rw [if_neg hqk, hval q hq]
        simp [List.count_append, hqk]
  · have hnotL : k ∉ L := fun h => hown ((hmem k).mpr h)
    have hkeys : (o.set k (JSVal.plus (JSVal.or (o.get k) (.num .zero))
        (.num (.fin 1 0)))).map Prod.fst = o.map Prod.fst ++ [k] := by
      rw [set_map_fst, addKey, if_neg (by simp [hown, hproto])]
    refine ⟨?_, fun a => ?_, ?_⟩
    · rw [hkeys]
      exact List.Nodup.append hnd (List.nodup_singleton k) (by simpa using hown)
    · rw [hkeys, List.mem_append, List.mem_append, hmem]
    · have hany : ¬ o.any (fun p => p.1 == k) = true := by
        rw [List.any_eq_true]
        rintro ⟨p, hp, hpk⟩
        exact hown (List.mem_map.mpr ⟨p, hp, by simpa using hpk⟩)
      have hnew : JSVal.plus (JSVal.or (o.get k) (.num .zero)) (.num (.fin 1 0)) =
          .num (JSNum.ofInt 1) := by
        rw [get_of_not_own o k hown hk]
        decide
      intro p hp
      unfold JSObj.set at hp
      rw [if_neg hany, if_neg hproto, List.mem_append, List.mem_singleton] at hp
      rcases hp with hp | rfl
      · have hpk : p.1 ≠ k := fun h => hown (h ▸ List.mem_map_of_mem Prod.fst hp)
        rw [hval p hp]
        simp [List.count_append, hpk]
      · rw [hnew]
        simp [List.count_append, List.count_eq_zero.mpr hnotL]

theorem foldl_count (xcol ycol : JSVal) (rows : List JSObj) (o : JSObj) (L : List String)
    (hnd : (o.map Prod.fst).Nodup) (hmem : ∀ a, a ∈ o.map Prod.fst ↔ a ∈ L)
    (hval : ∀ p ∈ o, p.2 = .num (JSNum.ofInt (L.count p.1)))
    (hk : ∀ r ∈ rows, countKey xcol ycol r ∉ protoKeys) :
    ((rows.foldl (fun counts r =>
        counts.set (countKey xcol ycol r)
          (JSVal.plus (JSVal.or (counts.get (countKey xcol ycol r)) (.num .zero))
            (.num (.fin 1 0)))) o).map Prod.fst).Nodup ∧
    (∀ a, a ∈ (rows.foldl (fun counts r =>
        counts.set (countKey xcol ycol r)
          (JSVal.plus (JSVal.or (counts.get (countKey xcol ycol r)) (.num .zero))
            (.num (.fin 1 0)))) o).map Prod.fst ↔ a ∈ L ++ rows.map (countKey xcol ycol)) ∧
    ∀ p ∈ rows.foldl (fun counts r =>
        counts.set (countKey xcol ycol r)
          (JSVal.plus (JSVal.or (counts.get (countKey xcol ycol r)) (.num .zero))
            (.num (.fin 1 0)))) o,
      p.2 = .num (JSNum.ofInt ((L ++ rows.map (countKey xcol ycol)).count p.1)) := by
  induction rows generalizing o L with
  | nil =>
    simp only [List.foldl_nil, List.map_nil, List.append_nil]
    exact ⟨hnd, hmem, hval⟩
  | cons r rows ih =>
    obtain ⟨h₁, h₂, h₃⟩ := count_step o L (countKey xcol ycol r) hnd hmem hval
      (hk r (List.mem_cons_self _ _))
    have := ih _ (L ++ [countKey xcol ycol r]) h₁ h₂ h₃
      (fun r' hr' => hk r' (List.mem_cons_of_mem _ hr'))
    simpa only [List.foldl_cons, List.map_cons, List.append_assoc, List.singleton_append]
      using this

theorem groupCount_spec (rows : List JSObj) (xcol ycol : JSVal)
    (hk : ∀ r ∈ rows, countKey xcol ycol r ∉ protoKeys) :
    ((groupCount rows xcol ycol).map Prod.fst).Nodup ∧
    (∀ a, a ∈ (groupCount rows xcol ycol).map Prod.fst ↔ a ∈ rows.map (countKey xcol ycol)) ∧
    ∀ p ∈ groupCount rows xcol ycol,
      p.2 = .num (JSNum.ofInt ((rows.map (countKey xcol ycol)).count p.1)) := by
  have := foldl_count xcol ycol rows [] [] List.nodup_nil (fun a => by simp)
    (fun p hp => absurd hp (List.not_mem_nil _)) hk
  simpa only [List.nil_append] using this

theorem entries_perm (o : JSObj) : o.entries.Perm o := by
  unfold JSObj.entries
  refine ((List.perm_insertionSort _ _).append_right _).trans ?_
  exact List.filter_append_perm (fun p => isArrayIndex p.1) o

/-- C26: for chartType "pie" outside the group-and-sum branch, when no row key
`String(r[xcol] ?? r[ycol] ?? "unknown")` is a name that objects inherit, the
labels are the distinct keys, each value is the number of rows with that key
and the counts sum to `rows.length` (on `payerRows` the y value stands in for
an absent x, and `unknown` for both absent). But the counts start from `{}`:
on `kindRows`, profiled as one categorical column and given the frequency pie
by the advisor, the key `constructor` gets a text instead of the count `2` and
the key `__proto__` is dropped, so the values do not sum to the six rows. -/
theorem buildChartData_pie_frequency :
    (∀ (host : String → Option Int) (rows : List JSObj) (xcol ycol : JSVal)
        (colsMeta : List ColMeta),
      rows ≠ [] →
      isCategoryNumber (findByName colsMeta xcol) (findByName colsMeta ycol) = false →
      (∀ r ∈ rows, countKey xcol ycol r ∉ protoKeys) →
      ∃ labels, buildChartData host (some rows) xcol ycol "pie" colsMeta =
          some { labels := some labels, label := .undefined,
                 data := .values (labels.map fun k =>
                   .num (JSNum.ofInt ((rows.map (countKey xcol ycol)).count k))) } ∧
        labels.Nodup ∧ (∀ k, k ∈ labels ↔ k ∈ rows.map (countKey xcol ycol)) ∧
        (labels.map fun k => (rows.map (countKey xcol ycol)).count k).sum = rows.length) ∧
    buildChartData hostNone (some payerRows) (.str "who") (.str "paid") "pie"
        (detectColumnsFromData hostNone (some payerRows)) =
      some { labels := some ["20", "30", "ann"], label := .undefined,
             data := .values [.num (.fin 1 0), .num (.fin 1 0), .num (.fin 1 0)] } ∧
    buildChartData hostNone (some payerRows) (.str "who") .null "pie"
        (detectColumnsFromData hostNone (some payerRows)) =
      some { labels := some ["ann", "unknown"], label := .undefined,
             data := .values [.num (.fin 1 0), .num (.fin 2 0)] } ∧
    suggestChart (detectColumnsFromData hostNone (some kindRows)) .undefined .undefined =
      { type := "pie", reason := "categorical distribution", x := .str "kind", y := .null,
        viewType := some "frequency" } ∧
    kindRows.map (countKey (.str "kind") .null) =
      ["constructor", "method", "constructor", "method", "__proto__", "__proto__"] ∧
    buildChartData hostNone (some kindRows) (.str "kind") .null "pie"
        (detectColumnsFromData hostNone (some kindRows)) =
      some { labels := some ["constructor", "method"], label := .undefined,
             data := .values [.str "function Object() { [native code] }11",
                              .num (.fin 2 0)] } := by
  refine ⟨?_, by decide, by decide, by decide, by decide, by decide⟩
  intro host rows xcol ycol colsMeta hr hcn hk
  have hlen : rows.length ≠ 0 := fun h => hr (List.length_eq_zero.mp h)
  obtain ⟨hnd, hmem, hval⟩ := groupCount_spec rows xcol ycol hk
  have hperm := entries_perm (groupCount rows xcol ycol)
  have hkeysnd : (groupCount rows xcol ycol).keys.Nodup :=
    (hperm.map Prod.fst).nodup_iff.mpr hnd
  have hkeysmem : ∀ k, k ∈ (groupCount rows xcol ycol).keys ↔
      k ∈ rows.map (countKey xcol ycol) := fun k =>
    ((hperm.map Prod.fst).mem_iff).trans (hmem k)
  refine ⟨(groupCount rows xcol ycol).keys, ?_, hkeysnd, hkeysmem, ?_⟩
  · have hvals : (groupCount rows xcol ycol).values =
        (groupCount rows xcol ycol).keys.map fun k =>
          .num (JSNum.ofInt ((rows.map (countKey xcol ycol)).count k)) := by
      unfold JSObj.values JSObj.keys
      rw [List.map_map]
      apply List.map_congr_left
      intro p hp
      exact hval p (hperm.subset hp)
    simp [buildChartData, hlen, hcn, hvals]
  · have hp : (groupCount rows xcol ycol).keys.Perm (rows.map (countKey xcol ycol)).dedup := by
      rw [List.perm_ext_iff_of_nodup hkeysnd (List.nodup_dedup _)]
      intro k
      rw [hkeysmem, List.mem_dedup]
    rw [(hp.map _).sum_eq, List.sum_map_count_dedup_eq_length, List.length_map]

/-! ## Response validation -/

theorem typeOf_ne_Object (v : JSAny) : v.typeOf ≠ "Object" := by
  cases v with
  | object callable props => cases callable <;> simp [JSAny.typeOf]
  | _ => simp [JSAny.typeOf]

/-- C30: `validateAPIResponse` throws `AppError("Invalid API response", 500,
"API_ERROR")` for every response and every list of required fields, because
`typeof` never yields the capitalised text `"Object"`; it returns `true` for
no input, not even for a plain object that holds every required field. -/
theorem validateAPIResponse_always_throws (response : JSAny) (requiredFields : List String) :
    validateAPIResponse response requiredFields =
        .error (.appError "Invalid API response" 500 "API_ERROR") ∧
      validateAPIResponse response requiredFields ≠ .ok true ∧
      validateAPIResponse weatherResponse ["temp", "city"] =
        .error (.appError "Invalid API response" 500 "API_ERROR") := by
  have h : ∀ (v : JSAny) (fs : List String), validateAPIResponse v fs =
      .error (.appError "Invalid API response" 500 "API_ERROR") := by
    intro v fs
    unfold validateAPIResponse
    rw [if_pos]
    simp [typeOf_ne_Object v]
  refine ⟨h _ _, ?_, h _ _⟩
  rw [h]
  exact fun hc => by cases hc

end UploadZone
